import Mathlib

/-!
Verification of the stage-tracking add-on and its log-aggregation tools.

The development shallowly embeds the Python sources:
  * `__init__.py` — the Blender add-on (`StageManager`, the operator classes,
    and the `TUTORIAL_PG_Properties` session state), and
  * `23DB000/jsonl_to_stage_summary_csv.py` — the standalone summary script.

Conventions of the embedding:
  * Python floats are modelled as rationals (`ℚ`); every comparison the code
    performs on stall times, tolerances and coordinates is exact at the values
    the claims mention, so no floating-point rounding is load-bearing.
  * Euclidean distances (`math.sqrt`) are compared against thresholds by
    comparing the squared distance against the squared threshold, an
    equivalent test over nonnegative rationals.
  * Rotations are carried in degrees (the source converts radians to degrees
    with `math.degrees` before comparing; the snapshot and the stored
    baselines here hold the already-converted values).
  * `json.loads` is external library code: a log line is modelled as either
    blank, unparseable, or a parsed event record (`RawLine`), mirroring the
    `try/except json.JSONDecodeError` skip in both readers.
  * File-system effects are explicit: a file system is a list of
    `(path, lines)` pairs and appends are explicit operations.
-/

/-! ### Parsed JSON events as the aggregators read them

A parsed log line, as consumed by `TUTORIAL_OT_export_stage_summary_csv.execute`
(`__init__.py` lines 959-982) and by `jsonl_to_stage_summary_csv.main`
(lines 25-52).  Each field models a `.get` access on the parsed dict:
`none` is a missing key (Python `None`). -/
structure PEvent where
  event : Option String
  chapter : Option Int
  stage : Option Int
  ok : Option Bool
  completed : Option Bool
  stalled_seconds : Option ℚ
deriving DecidableEq, Repr

/-- A row of the operator's `by_stage` dict (`__init__.py` line 970):
`{"chapter": ..., "stage": ..., "failures": 0, "stalled_seconds": None, "completed": None}`. -/
structure OpRow where
  chapter : Int
  stage : Int
  failures : Nat
  stalled_seconds : Option ℚ
  completed : Option Bool
deriving DecidableEq, Repr

/-- A row of the standalone script's `by_stage` dict
(`jsonl_to_stage_summary_csv.py` lines 33-39): failures start at `0`,
`stalled_seconds` at `0.0`, `completed` at the empty string. -/
structure ScriptRow where
  chapter : Int
  stage : Int
  failures : Nat
  stalled_seconds : ℚ
  completed : String
deriving DecidableEq, Repr

/-! ### Insertion-ordered association lists (the Python dicts) -/

/-- First value stored under key `k` (Python `d[k]` / `k in d`). -/
def alookup {κ α : Type} [DecidableEq κ] (k : κ) : List (κ × α) → Option α
  | [] => none
  | (k₀, v) :: rest => if k₀ = k then some v else alookup k rest

/-- Update every entry stored under key `k` (Python `d[k] = f(d[k])`;
the dicts built below never hold a key twice). -/
def aupd {κ α : Type} [DecidableEq κ] (k : κ) (f : α → α) : List (κ × α) → List (κ × α)
  | [] => []
  | (k₀, v) :: rest => (k₀, if k₀ = k then f v else v) :: aupd k f rest

/-- The `(chapter, stage)` key of an event, when both fields are present
(the `None` checks on chapter and stage, then `int(...)`). -/
def pkey (ev : PEvent) : Option (Int × Int) :=
  match ev.chapter, ev.stage with
  | some ch, some st => some (ch, st)
  | _, _ => none

/-- One step of the operator's grouping loop, `__init__.py` lines 960-977:
skip events other than `validate`/`finalize`, skip events without a key,
`setdefault` the row, count `ok is False` validates, and let the fields of
each `finalize` overwrite the row (when not `None`). -/
def opStep (m : List ((Int × Int) × OpRow)) (ev : PEvent) : List ((Int × Int) × OpRow) :=
  if ev.event = some "validate" ∨ ev.event = some "finalize" then
    match pkey ev with
    | some key =>
      let m1 := if (alookup key m).isSome then m
                else m ++ [(key, ⟨key.1, key.2, 0, none, none⟩)]
      let m2 := if ev.event = some "validate" ∧ ev.ok = some false then
                  aupd key (fun r => { r with failures := r.failures + 1 }) m1
                else m1
      if ev.event = some "finalize" then
        let m3 := match ev.stalled_seconds with
                  | some q => aupd key (fun r => { r with stalled_seconds := some q }) m2
                  | none => m2
        match ev.completed with
        | some b => aupd key (fun r => { r with completed := some b }) m3
        | none => m3
      else m2
    | none => m
  else m

/-- The operator's `by_stage` dict after the whole event list is processed. -/
def op_by_stage (evs : List PEvent) : List ((Int × Int) × OpRow) :=
  evs.foldl opStep []

/-- `total_stalled` of the operator, `__init__.py` lines 979-982: sum the
non-`None` `stalled_seconds` over the rows (in dict order). -/
def op_total (evs : List PEvent) : ℚ :=
  (op_by_stage evs).foldl
    (fun acc e => match e.2.stalled_seconds with
                  | some q => acc + q
                  | none => acc) 0

/-- One step of the standalone script's grouping loop,
`jsonl_to_stage_summary_csv.py` lines 25-52.  Unlike the operator it also
keeps `setup` events, and its defaults are `0.0` / `""`. -/
def scriptStep (m : List ((Int × Int) × ScriptRow)) (ev : PEvent) :
    List ((Int × Int) × ScriptRow) :=
  if ev.event = some "validate" ∨ ev.event = some "finalize" ∨ ev.event = some "setup" then
    match pkey ev with
    | some key =>
      let m1 := if (alookup key m).isSome then m
                else m ++ [(key, ⟨key.1, key.2, 0, 0, ""⟩)]
      let m2 := if ev.event = some "validate" ∧ ev.ok = some false then
                  aupd key (fun r => { r with failures := r.failures + 1 }) m1
                else m1
      if ev.event = some "finalize" then
        let m3 := match ev.stalled_seconds with
                  | some q => aupd key (fun r => { r with stalled_seconds := q }) m2
                  | none => m2
        match ev.completed with
        | some b => aupd key
            (fun r => { r with completed := if b then "True" else "False" }) m3
        | none => m3
      else m2
    | none => m
  else m

/-- The script's `by_stage` dict after the whole event list is processed. -/
def script_by_stage (evs : List PEvent) : List ((Int × Int) × ScriptRow) :=
  evs.foldl scriptStep []

/-- `total_time` of the script, line 58: sum of every row's `stalled_seconds`. -/
def script_total (evs : List PEvent) : ℚ :=
  (script_by_stage evs).foldl (fun acc e => acc + e.2.stalled_seconds) 0

/-! ### CSV output -/

/-- Round to the nearest integer, ties to even — the rounding Python's fixed
format applies (the nonnegative values the sources format never hit the
sign-of-zero corner). -/
def round_half_even (q : ℚ) : Int :=
  let f : Int := ⌊q⌋
  let r : ℚ := q - f
  if r < 1/2 then f
  else if 1/2 < r then f + 1
  else if f % 2 = 0 then f else f + 1

/-- Fixed-point formatting with `d` fractional digits: the Python
format used as stall-time output in both CSV writers (`fmt_fixed 3` there). -/
def fmt_fixed (d : Nat) (q : ℚ) : String :=
  let n := round_half_even (q * ((10 : ℚ) ^ d))
  let sign := if n < 0 then "-" else ""
  let a := n.natAbs
  let ip := a / 10 ^ d
  let fp := a % 10 ^ d
  let fs := toString fp
  sign ++ toString ip ++ "." ++ String.mk (List.replicate (d - fs.length) '0') ++ fs

/-- Ascending order on `(chapter, stage)` keys: Python's tuple comparison,
used by `sorted(by_stage.keys())` in both writers. -/
def keyLE (a b : Int × Int) : Prop :=
  a.1 < b.1 ∨ (a.1 = b.1 ∧ a.2 ≤ b.2)

instance : DecidableRel keyLE := fun a b => by
  unfold keyLE
  infer_instance

instance : IsTotal (Int × Int) keyLE := by
  constructor
  intro a b
  rcases lt_trichotomy a.1 b.1 with h | h | h
  · exact Or.inl (Or.inl h)
  · rcases le_total a.2 b.2 with h2 | h2
    · exact Or.inl (Or.inr ⟨h, h2⟩)
    · exact Or.inr (Or.inr ⟨h.symm, h2⟩)
  · exact Or.inr (Or.inl h)

instance : IsTrans (Int × Int) keyLE := by
  constructor
  rintro a b c (hab | ⟨hab, hab2⟩) (hbc | ⟨hbc, hbc2⟩)
  · exact Or.inl (hab.trans hbc)
  · exact Or.inl (hbc ▸ hab)
  · exact Or.inl (hab ▸ hbc)
  · exact Or.inr ⟨hab.trans hbc, hab2.trans hbc2⟩

/-- `sorted(by_stage.keys())`. -/
def sorted_keys {α : Type} (m : List ((Int × Int) × α)) : List (Int × Int) :=
  List.insertionSort keyLE (m.map Prod.fst)

/-- A CSV file as written through `csv.writer`: the rows of cells, plus
whether the file is opened with a UTF-8 byte-order mark
(Python encoding `utf-8-sig` versus plain `utf-8`). -/
structure CsvOut where
  bom : Bool
  rows : List (List String)
deriving DecidableEq, Repr

/-- Python `str(...)` on the booleans stored by the operator. -/
def pyStrBool (b : Bool) : String := if b then "True" else "False"

/-- The operator's CSV, `__init__.py` lines 984-998: `utf-8-sig` (with BOM);
name row, total row, blank row, column header, then one row per group in
ascending key order, stall formatted to three decimals (empty when the group
never finalized), completed via `str(...)` (empty when never finalized). -/
def op_export_csv (evs : List PEvent) (logname : String) : CsvOut :=
  let m := op_by_stage evs
  { bom := true
    rows :=
      [["participant_log_file", logname],
       ["total_stalled_seconds_finalize_only", fmt_fixed 3 (op_total evs)],
       [],
       ["chapter", "stage", "failures", "stalled_seconds_finalize_only", "completed"]] ++
      (sorted_keys m).map (fun k =>
        match alookup k m with
        | some r =>
          [toString r.chapter, toString r.stage, toString r.failures,
           (match r.stalled_seconds with
            | some q => fmt_fixed 3 q
            | none => ""),
           (match r.completed with
            | some b => pyStrBool b
            | none => "")]
        | none => []) }

/-- The standalone script's CSV, `jsonl_to_stage_summary_csv.py` lines 60-68:
plain `utf-8` (no BOM) and the older header names. -/
def script_export_csv (evs : List PEvent) (logname : String) : CsvOut :=
  let m := script_by_stage evs
  { bom := false
    rows :=
      [["participant_file", logname],
       ["total_stalled_seconds", fmt_fixed 3 (script_total evs)],
       [],
       ["chapter", "stage", "failures", "stalled_seconds", "completed"]] ++
      (sorted_keys m).map (fun k =>
        match alookup k m with
        | some r =>
          [toString r.chapter, toString r.stage, toString r.failures,
           fmt_fixed 3 r.stalled_seconds, r.completed]
        | none => []) }

/-! ### Reading the JSON-lines log

Both readers (`__init__.py` lines 945-957 and the script's lines 12-21) run
the same loop: strip the line, skip it when blank, try to parse it as JSON
and silently skip it on `JSONDecodeError`.  `json.loads` itself is library
code, so a raw line is modelled by what that try yields. -/
inductive RawLine
  | blank
  | invalid
  | valid (ev : PEvent)
deriving DecidableEq, Repr

/-- The `events` list both aggregation passes run on. -/
def read_events (lines : List RawLine) : List PEvent :=
  lines.foldl
    (fun acc l =>
      match l with
      | .blank => acc
      | .invalid => acc
      | .valid ev => acc ++ [ev]) []

/-! ### Session state (`TUTORIAL_PG_Properties`) and the run history -/

/-- A `StageRun` record (`__init__.py` lines 44-56).  The `IntProperty` and
`FloatProperty` min/max clamps are not modelled: every value the code stores
already satisfies them. -/
structure StageRunR where
  chapter : Int
  stage : Int
  completed : Bool
  last_reason : String
  last_message : String
  failed_count : Nat
  stalled_seconds : ℚ
  started_at : ℚ
  ended_at : ℚ
deriving DecidableEq, Repr

/-- The session state, `TUTORIAL_PG_Properties` (`__init__.py` lines 810-858).
Rotations are stored in degrees (see the header comment); `stage_start_time`
is `0` when the stage start is unset, as in the source. -/
structure Props where
  current_chapter : Int
  current_stage : Int
  stage_complete : Bool
  monitoring_active : Bool
  initial_position : ℚ × ℚ × ℚ
  initial_rotation : ℚ × ℚ × ℚ
  initial_scale : ℚ × ℚ × ℚ
  initial_view_distance : ℚ
  initial_view_location : ℚ × ℚ × ℚ
  initial_vertex_count : Nat
  initial_edge_count : Nat
  initial_face_count : Nat
  initial_vertex_positions : List (ℚ × ℚ × ℚ)
  failed_validate_count : Nat
  stage_start_time : ℚ
  last_result_ok : Bool
  last_reason : String
  last_message : String
  last_hints : String
  stage_runs : List StageRunR
  current_stall_seconds : ℚ
  enable_participant_logging : Bool
  participant_id : String
  log_dir : String
  participant_log_path : String
  participant_log_error : String
  final_render_saved_path : String
deriving DecidableEq, Repr

/-- An event as built by the logging helpers (`log_setup_event`,
`log_validate_event`, `log_finalize_event`, and the `session_start` record of
`ensure_participant_log_file`): the dict handed to `json.dumps`. -/
inductive WEvent
  | session_start (t : ℚ) (participant_id blender_version addon_version : String)
  | setup (t : ℚ) (participant_id : String) (chapter stage : Int)
  | validate (t : ℚ) (participant_id : String) (chapter stage : Int)
      (ok : Bool) (reason message : String) (fail_count : Nat) (stall_s : ℚ)
  | finalize (t : ℚ) (participant_id : String) (chapter stage : Int)
      (completed : Bool) (failed_count : Nat) (stalled_seconds : ℚ)
      (last_reason last_message : String) (stage_started_at : ℚ)
deriving DecidableEq, Repr

/-- Python `str.strip`: drop whitespace from both ends (written over the
character list so that it evaluates by kernel reduction). -/
def py_strip (s : String) : String :=
  String.mk (((s.data.dropWhile Char.isWhitespace).reverse.dropWhile
    Char.isWhitespace).reverse)

/-- `_safe_participant_id` (`__init__.py` lines 116-127): strip, then keep
alphanumeric characters, `-` and `_`, replacing everything else by `_`.
(`Char.isAlphanum` is the ASCII face of Python's Unicode `isalnum`; the
character class is not load-bearing for any claim.) -/
def safe_participant_id (pid : String) : String :=
  let pid := py_strip pid
  if pid = "" then ""
  else String.mk (pid.data.map (fun c =>
    if c.isAlphanum ∨ c = '-' ∨ c = '_' then c else '_'))

/-- The `StageRun` appended by `finalize_current_run` (lines 257-266). -/
def mk_run (p : Props) (completed : Bool) (now : ℚ) : StageRunR :=
  { chapter := p.current_chapter
    stage := p.current_stage
    completed := completed
    failed_count := p.failed_validate_count
    stalled_seconds := max 0 (now - p.stage_start_time)
    last_reason := p.last_reason
    last_message := p.last_message
    started_at := p.stage_start_time
    ended_at := now }

/-- The finalize event built by `log_finalize_event` (lines 227-243). -/
def mk_finalize_event (p : Props) (completed : Bool) (stalled now : ℚ) : WEvent :=
  .finalize now (safe_participant_id p.participant_id)
    p.current_chapter p.current_stage completed p.failed_validate_count stalled
    p.last_reason p.last_message p.stage_start_time

/-- `StageManager.finalize_current_run` (`__init__.py` lines 248-273).
No-op when `stage_start_time` is unset; otherwise append a run, evict from
the front down to 500 entries, and hand a finalize event to the logger.
The event content is returned explicitly (the logger itself may still drop
it on I/O failure, modelled separately); the two `_now()` reads are a single
instant here.  Note the function does not clear `stage_start_time`. -/
def finalize_current_run (p : Props) (completed : Bool) (now : ℚ) :
    Props × Option WEvent :=
  if p.stage_start_time ≤ 0 then (p, none)
  else
    let stalled := max 0 (now - p.stage_start_time)
    let runs := p.stage_runs ++ [mk_run p completed now]
    let runs := if 500 < runs.length then runs.drop (runs.length - 500) else runs
    ({ p with stage_runs := runs }, some (mk_finalize_event p completed stalled now))

/-- `StageManager.apply_hint_escalation` (`__init__.py` lines 601-609).
The failure count is a `Nat`, mirroring the `min=0` of the property it is
read from. -/
def apply_hint_escalation (hints : List String) (failed_validate_count : Nat) :
    List String :=
  if hints = [] then []
  else if failed_validate_count ≤ 1 then hints.take 1
  else if failed_validate_count = 2 then hints.take 2
  else hints.take 3

/-- The `max_stages_per_chapter` table with its `.get(ch, 1)` default
(`__init__.py` line 1201). -/
def max_stages_per_chapter (ch : Int) : Int :=
  if ch = 1 then 4 else if ch = 2 then 4 else if ch = 3 then 6
  else if ch = 4 then 4 else if ch = 5 then 5 else if ch = 6 then 1 else 1

/-- An object of the scene data as `turn_off_scene_camera_and_lights` sees it. -/
structure SceneObj where
  name : String
  otype : String
  hide_viewport : Bool
  hide_render : Bool
deriving DecidableEq, Repr

/-- The scene state touched by the session-end cleanup. -/
structure Scene where
  camera : Option String
  objects : List SceneObj
deriving DecidableEq, Repr

/-- `StageManager.turn_off_scene_camera_and_lights` (`__init__.py`
lines 339-347): unset the scene camera and hide every light (nothing is
deleted). -/
def turn_off_scene_camera_and_lights (s : Scene) : Scene :=
  { camera := none
    objects := s.objects.map (fun o =>
      if o.otype = "LIGHT" then { o with hide_viewport := true, hide_render := true }
      else o) }

/-- `TUTORIAL_OT_next_stage.execute` (`__init__.py` lines 1197-1225):
finalize with `completed=True`, then advance within the chapter, or roll to
the next chapter, or — at the last stage of the last chapter — run the
turn-off cleanup, zero `stage_start_time` and return at once (the counter
resets at the bottom of the function are not reached on that path). -/
def next_stage_execute (p : Props) (scene : Scene) (now : ℚ) :
    Props × Scene × Option WEvent :=
  let r := finalize_current_run p true now
  let p := r.1
  let ms := max_stages_per_chapter p.current_chapter
  if p.current_stage < ms then
    ({ p with current_stage := p.current_stage + 1,
              stage_complete := false, monitoring_active := false,
              failed_validate_count := 0, stage_start_time := 0,
              last_result_ok := true, last_reason := "", last_message := "",
              last_hints := "" }, scene, r.2)
  else if p.current_chapter < 6 then
    ({ p with current_chapter := p.current_chapter + 1, current_stage := 1,
              stage_complete := false, monitoring_active := false,
              failed_validate_count := 0, stage_start_time := 0,
              last_result_ok := true, last_reason := "", last_message := "",
              last_hints := "" }, scene, r.2)
  else
    ({ p with stage_start_time := 0 },
     turn_off_scene_camera_and_lights scene, r.2)

/-! ### Environment snapshots and the validation engine

`StageManager.validate_stage` (`__init__.py` lines 614-794) reads the scene
through a fixed set of queries; `Env` holds the answers those queries would
give at the validation tick.  `bpy.path.abspath` is the identity here and the
existence check on the saved render is an oracle carried by the snapshot. -/

/-- A shader node as the chapter-5 checks see it.  `nid` models object
identity (the `==` comparisons between nodes and link endpoints). -/
structure NodeD where
  ntype : String
  nid : Nat
  has_image : Bool
  base_color : ℚ × ℚ × ℚ × ℚ
  roughness : ℚ
  metallic : ℚ
deriving DecidableEq, Repr

/-- A node-tree link (`check_correct_node_link`). -/
structure LinkD where
  from_id : Nat
  to_id : Nat
  from_socket : String
  to_socket : String
deriving DecidableEq, Repr

/-- A material with its node tree. -/
structure MaterialD where
  use_nodes : Bool
  nodes : List NodeD
  links : List LinkD
deriving DecidableEq, Repr

/-- A scene object as the validation queries see it.  Rotation is in degrees
(see the header comment); `has_material_slots` models the truthiness of
`obj.material_slots`. -/
structure ObjD where
  name : String
  otype : String
  location : ℚ × ℚ × ℚ
  rotation_euler_deg : ℚ × ℚ × ℚ
  scale : ℚ × ℚ × ℚ
  vertices : List (ℚ × ℚ × ℚ)
  has_material_slots : Bool
  active_material : Option MaterialD
deriving DecidableEq, Repr

/-- The 3D-view region state (`space.region_3d`). -/
structure R3D where
  view_location : ℚ × ℚ × ℚ
  view_distance : ℚ
deriving DecidableEq, Repr

/-- The edit-mode mesh as `get_bm` exposes it: per-element selection flags. -/
structure BMeshD where
  verts : List Bool
  edges : List Bool
  faces : List Bool
deriving DecidableEq, Repr

/-- The environment snapshot consumed by one validation call. -/
structure Env where
  active_object : Option ObjD
  mode : String
  view3d : Option R3D
  mesh_select_mode : Bool × Bool × Bool
  objects : List ObjD
  edit_bmesh : BMeshD
  sculpt_brush : Option String
  nonempty_files : List String
deriving DecidableEq, Repr

/-- The 4-tuple `validate_stage` returns: `(ok, message, reason, hints)`. -/
abbrev VOut := Bool × String × String × List String

/-- `StageManager.find_sphere` (lines 393-398). -/
def find_sphere (env : Env) : Option ObjD :=
  env.objects.find? (fun o => o.otype == "MESH" && o.name == "Sphere")

/-- `StageManager.get_bm` (lines 409-415): edit-mode mesh of the active
object, `none` outside edit mode or without a mesh object. -/
def get_bm (env : Env) (obj : Option ObjD) : Option BMeshD :=
  match obj with
  | none => none
  | some o =>
    if o.otype ≠ "MESH" then none
    else if env.mode ≠ "EDIT_MESH" then none
    else some env.edit_bmesh

/-- `StageManager.is_in_sculpt_mode` (line 427). -/
def is_in_sculpt_mode (env : Env) : Bool := env.mode == "SCULPT"

/-- Python's substring test (the `in` operator on strings). -/
def str_contains (hay needle : String) : Bool :=
  (List.range (hay.data.length + 1)).any (fun i => needle.data.isPrefixOf (hay.data.drop i))

/-- `StageManager.is_brush_type_selected` (lines 438-441):
`bool(bn and brush_type_name in bn)`. -/
def is_brush_type_selected (env : Env) (brush_type_name : String) : Bool :=
  match env.sculpt_brush with
  | none => false
  | some bn => if bn = "" then false else str_contains bn brush_type_name

/-- Squared Euclidean distance; the source compares `vec_dist` (with
`math.sqrt`) against a threshold, an equivalent test. -/
def dist_sq (a b : ℚ × ℚ × ℚ) : ℚ :=
  (a.1 - b.1) ^ 2 + (a.2.1 - b.2.1) ^ 2 + (a.2.2 - b.2.2) ^ 2

/-- The `moved` count of `StageManager.get_vertex_deformation_amount`
(lines 443-469): compared over the common prefix of the vertex lists, a
vertex counts when it moved strictly more than `0.001` (squared test; the
`total` distance the source also returns is discarded by its one caller). -/
def get_vertex_deformation_moved (sphere : ObjD) (initial : List (ℚ × ℚ × ℚ)) : Nat :=
  (sphere.vertices.zip initial).countP
    (fun pr => decide (((1:ℚ)/1000) ^ 2 < dist_sq pr.1 pr.2))

/-- `StageManager.get_active_material` (lines 471-475). -/
def get_active_material (o : ObjD) : Option MaterialD :=
  if ¬ o.has_material_slots then none else o.active_material

/-- `StageManager.get_principled_bsdf` (lines 477-484): first node of type
`BSDF_PRINCIPLED`. -/
def get_principled_bsdf (mat : MaterialD) : Option NodeD :=
  if ¬ mat.use_nodes then none
  else mat.nodes.find? (fun n => n.ntype == "BSDF_PRINCIPLED")

/-- `StageManager.check_image_texture_node_exists` (lines 486-491). -/
def check_image_texture_node_exists (o : ObjD) : Bool :=
  match get_active_material o with
  | none => false
  | some mat =>
    if ¬ mat.use_nodes then false
    else mat.nodes.any (fun n => n.ntype == "TEX_IMAGE" && n.has_image)

/-- `StageManager.check_correct_node_link` (lines 493-513): the loop keeps
the last image-texture and last principled-BSDF node, then looks for a link
from that texture's `Color` socket into that BSDF's `Base Color` socket. -/
def check_correct_node_link (o : ObjD) : Bool :=
  match get_active_material o with
  | none => false
  | some mat =>
    if ¬ mat.use_nodes then false
    else
      match (mat.nodes.filter (fun n => n.ntype == "TEX_IMAGE")).getLast?,
            (mat.nodes.filter (fun n => n.ntype == "BSDF_PRINCIPLED")).getLast? with
      | some tex, some bsdf =>
        mat.links.any (fun l =>
          l.from_id == tex.nid && l.to_id == bsdf.nid &&
          l.from_socket == "Color" && l.to_socket == "Base Color")
      | _, _ => false

/-- `StageManager.file_exists_nonempty` (lines 278-283), as the snapshot's
oracle. -/
def file_exists_nonempty (env : Env) (path : String) : Bool :=
  env.nonempty_files.contains path

/-- `os.path.basename` on the forward-slash paths the messages show. -/
def os_basename (s : String) : String :=
  (s.splitOn "/").getLastD s

/-- The final fall-through of `validate_stage` (line 794), also reached when
a chapter block matches no stage (the later chapter tests are then false). -/
def vUnknown : VOut :=
  (false, "❌ 判定エラー", "UNKNOWN", ["セットアップして再試行"])

/-- Chapter 1 of `validate_stage` (lines 622-646). -/
def validate_ch1 (st : Int) (obj : Option ObjD) (p : Props) : VOut :=
  if st = 1 then
    match obj with
    | some o =>
      if o.name = "Cube" then (true, "✓ キューブが選択されました", "OK", [])
      else (false, "❌ キューブを選択してください", "NO_ACTIVE_CUBE",
            ["3Dビューで Cube をクリックして選択します"])
    | none => (false, "❌ キューブを選択してください", "NO_ACTIVE_CUBE",
               ["3Dビューで Cube をクリックして選択します"])
  else if st = 2 then
    match obj with
    | some o =>
      if o.name ≠ "Cube" then
        (false, "❌ キューブなし", "NO_ACTIVE_CUBE", ["まず Cube を選択してください"])
      else
        let movement := o.location.1 - p.initial_position.1
        if |movement - 2| < 1/10 then (true, "✓ +2移動しました", "OK", [])
        else (false, "❌ 移動: " ++ fmt_fixed 2 movement, "TRANSFORM_NOT_MATCHED",
              ["G → X → 2 → Enter の順に入力します"])
    | none => (false, "❌ キューブなし", "NO_ACTIVE_CUBE", ["まず Cube を選択してください"])
  else if st = 3 then
    match obj with
    | some o =>
      if o.name ≠ "Cube" then
        (false, "❌ キューブなし", "NO_ACTIVE_CUBE", ["まず Cube を選択してください"])
      else
        let rot := o.rotation_euler_deg.1 - p.initial_rotation.1
        if |rot - 45| < 1 then (true, "✓ 45度回転しました", "OK", [])
        else (false, "❌ 回転: " ++ fmt_fixed 1 rot ++ "°", "TRANSFORM_NOT_MATCHED",
              ["R → X → 45 → Enter の順に入力します"])
    | none => (false, "❌ キューブなし", "NO_ACTIVE_CUBE", ["まず Cube を選択してください"])
  else if st = 4 then
    match obj with
    | some o =>
      if o.name ≠ "Cube" then
        (false, "❌ キューブなし", "NO_ACTIVE_CUBE", ["まず Cube を選択してください"])
      else if 1/100 < |o.scale.1 - p.initial_scale.1| then
        (true, "✓ スケール変更完了", "OK", [])
      else (false, "❌ スケール値を変更してください", "SCALE_NOT_CHANGED",
            ["S キーでスケール変更できます（Enterで確定）"])
    | none => (false, "❌ キューブなし", "NO_ACTIVE_CUBE", ["まず Cube を選択してください"])
  else vUnknown

/-- Chapter 2 of `validate_stage` (lines 649-674). -/
def validate_ch2 (st : Int) (p : Props) (env : Env) : VOut :=
  match env.view3d with
  | none => (false, "❌ 3Dビューなし", "NO_VIEW3D", ["3Dビューがあるレイアウトに戻してください"])
  | some r3d =>
    if st = 1 then
      if ((1:ℚ)/10) ^ 2 < dist_sq r3d.view_location p.initial_view_location then
        (true, "✓ ビュー移動完了", "OK", [])
      else (false, "❌ ビューをパンしてください", "VIEW_NOT_MOVED",
            ["Shift + 中ボタンドラッグでパンします"])
    else if st = 2 then
      if 1/2 < |r3d.view_distance - p.initial_view_distance| then
        (true, "✓ ズーム完了", "OK", [])
      else (false, "❌ ズームしてください", "VIEW_NOT_ZOOMED", ["中ボタンスクロールでズームします"])
    else if st = 3 then
      if ((1:ℚ)/100) ^ 2 < dist_sq r3d.view_location p.initial_view_location ∨
         1/100 < |r3d.view_distance - p.initial_view_distance| then
        (true, "✓ ビュー回転完了", "OK", [])
      else (false, "❌ ビューを回転させてください", "VIEW_NOT_ROTATED",
            ["中ボタンドラッグで回転します（Shiftは押さない）"])
    else if st = 4 then
      if ((1:ℚ)/10) ^ 2 < dist_sq r3d.view_location p.initial_view_location ∧
         1/2 < |r3d.view_distance - p.initial_view_distance| then
        (true, "✓ すべてのビュー操作をマスターしました", "OK", [])
      else (false, "❌ パン + ズームを実行してください", "VIEW_NOT_COMPLETED",
            ["Shift+中ボタンでパン", "ホイールでズーム"])
    else vUnknown

/-- Chapter 3 of `validate_stage` (lines 677-713). -/
def validate_ch3 (st : Int) (obj : Option ObjD) (p : Props) (env : Env) : VOut :=
  if st = 1 then
    if obj.isSome ∧ env.mode = "EDIT_MESH" then
      (true, "✓ エディットモード突入", "OK", [])
    else (false, "❌ エディットモードに入ってください", "NOT_IN_EDIT_MODE",
          ["Cubeを選択→TabでEdit Mode"])
  else
    match get_bm env obj with
    | none => (false, "❌ エディットモード必須", "NOT_IN_EDIT_MODE", ["Cubeを選択→TabでEdit Mode"])
    | some bm =>
      if st = 2 then
        if ¬ env.mesh_select_mode.1 then
          (false, "❌ 頂点選択モードに切り替えてください", "WRONG_SELECT_MODE", ["1キーで頂点選択モード"])
        else
          let sel := bm.verts.countP id
          if 3 ≤ sel then (true, "✓ 頂点選択: " ++ toString sel ++ "個", "OK", [])
          else (false, "❌ 頂点を選択してください (" ++ toString sel ++ "個)",
                "NOT_ENOUGH_SELECTED", ["Shiftで複数選択", "3つ以上選択"])
      else if st = 3 then
        if ¬ env.mesh_select_mode.2.1 then
          (false, "❌ エッジ選択モードに切り替えてください", "WRONG_SELECT_MODE", ["2キーでエッジ選択モード"])
        else if bm.edges.any id then (true, "✓ エッジ選択完了", "OK", [])
        else (false, "❌ エッジを選択してください", "NOTHING_SELECTED", ["エッジをクリックして選択"])
      else if st = 4 then
        if ¬ env.mesh_select_mode.2.2 then
          (false, "❌ フェース選択モードに切り替えてください", "WRONG_SELECT_MODE", ["3キーでフェース選択モード"])
        else if bm.faces.any id then (true, "✓ フェース選択完了", "OK", [])
        else (false, "❌ フェースを選択してください", "NOTHING_SELECTED", ["面をクリックして選択"])
      else if st = 5 then
        if p.initial_face_count < bm.faces.length then (true, "✓ 押し出し完了", "OK", [])
        else (false, "❌ 面を押し出してください", "EXTRUDE_NOT_DETECTED", ["面を選択→E→Enter"])
      else if st = 6 then
        if p.initial_vertex_count < bm.verts.length then (true, "✓ ループカット完了", "OK", [])
        else (false, "❌ ループカットを追加してください", "LOOPCUT_NOT_DETECTED",
              ["Ctrl+R→クリック→クリック"])
      else vUnknown

/-- Chapter 4 of `validate_stage` (lines 716-736). -/
def validate_ch4 (st : Int) (p : Props) (env : Env) : VOut :=
  let sphere := find_sphere env
  if st = 1 then
    if is_in_sculpt_mode env ∧ sphere.isSome then
      (true, "✓ スカルプトモード入場", "OK", [])
    else (false, "❌ スカルプトモードに入ってください", "NOT_IN_SCULPT_MODE",
          ["セットアップ→Sculpt Mode"])
  else if st = 2 then
    match sphere with
    | some sp =>
      if is_in_sculpt_mode env then
        if 5 < get_vertex_deformation_moved sp p.initial_vertex_positions then
          (true, "✓ Draw ブラシで変形しました", "OK", [])
        else (false, "❌ Draw ブラシで変形してください", "SCULPT_NOT_DETECTED",
              ["Drawでドラッグ", "Fでサイズ調整"])
      else (false, "❌ スカルプトモード必須", "NOT_IN_SCULPT_MODE", ["Sculpt Modeに切り替え"])
    | none => (false, "❌ スカルプトモード必須", "NOT_IN_SCULPT_MODE", ["Sculpt Modeに切り替え"])
  else if st = 3 then
    if is_in_sculpt_mode env ∧ is_brush_type_selected env "Smooth" then
      (true, "✓ Smooth ブラシを選択しました", "OK", [])
    else (false, "❌ Smooth ブラシを選択してください", "WRONG_BRUSH", ["Smoothを選択"])
  else if st = 4 then
    if is_in_sculpt_mode env ∧ is_brush_type_selected env "Grab" then
      (true, "✓ Grab ブラシを選択しました", "OK", [])
    else (false, "❌ Grab ブラシを選択してください", "WRONG_BRUSH", ["Grabを選択"])
  else vUnknown

/-- Chapter 5 of `validate_stage` (lines 739-779). -/
def validate_ch5 (st : Int) (obj : Option ObjD) : VOut :=
  if st = 1 then
    match obj with
    | none => (false, "❌ オブジェクトを選択してください", "NO_ACTIVE_OBJECT", ["オブジェクトを選択"])
    | some o =>
      match get_active_material o with
      | some mat =>
        if mat.use_nodes then (true, "✓ マテリアル作成完了", "OK", [])
        else (false, "❌ マテリアルを作成してください", "NO_MATERIAL", ["Materialで「新規」→Use Nodes"])
      | none => (false, "❌ マテリアルを作成してください", "NO_MATERIAL", ["Materialで「新規」→Use Nodes"])
  else if st = 2 then
    match obj with
    | none => (false, "❌ オブジェクトを選択してください", "NO_ACTIVE_OBJECT", ["オブジェクトを選択"])
    | some o =>
      match (get_active_material o).bind get_principled_bsdf with
      | none => (false, "❌ Principled BSDF が見つかりません", "NO_BSDF", ["Use NodesをON"])
      | some bsdf =>
        if 1/100 < |bsdf.base_color.1 - 1| ∨ 1/100 < |bsdf.base_color.2.1 - 1| ∨
           1/100 < |bsdf.base_color.2.2.1 - 1| ∨ 1/100 < |bsdf.base_color.2.2.2 - 1| then
          (true, "✓ Base Color を変更しました", "OK", [])
        else (false, "❌ Base Color を変更してください", "BASE_COLOR_NOT_CHANGED",
              ["Base Colorを変更"])
  else if st = 3 then
    match obj with
    | some o =>
      if check_image_texture_node_exists o then
        (true, "✓ 画像テクスチャをロードしました", "OK", [])
      else (false, "❌ 画像テクスチャをロードしてください", "NO_IMAGE_TEXTURE",
            ["画像テクスチャノード→Open"])
    | none => (false, "❌ 画像テクスチャをロードしてください", "NO_IMAGE_TEXTURE",
               ["画像テクスチャノード→Open"])
  else if st = 4 then
    match obj with
    | some o =>
      if check_correct_node_link o then (true, "✓ ノード接続完了", "OK", [])
      else (false, "❌ ノード接続してください", "NODE_LINK_INCORRECT",
            ["Image Color→Base Colorへ接続"])
    | none => (false, "❌ ノード接続してください", "NODE_LINK_INCORRECT",
               ["Image Color→Base Colorへ接続"])
  else if st = 5 then
    match obj with
    | none => (false, "❌ オブジェクトを選択してください", "NO_ACTIVE_OBJECT", ["オブジェクトを選択"])
    | some o =>
      match (get_active_material o).bind get_principled_bsdf with
      | none => (false, "❌ Principled BSDF が見つかりません", "NO_BSDF", ["Use NodesをON"])
      | some bsdf =>
        if 1/100 < |bsdf.roughness - 1/2| ∨ 1/100 < |bsdf.metallic - 0| then
          (true, "✓ 質感を変更しました", "OK", [])
        else (false, "❌ Roughness または Metallic を変更してください", "PBR_NOT_CHANGED",
              ["Roughness/Metallicを変更"])
  else vUnknown

/-- Chapter 6 of `validate_stage` (lines 786-792), run after the stage clamp
of lines 783-784. -/
def validate_ch6 (p : Props) (env : Env) : VOut :=
  let saved := py_strip p.final_render_saved_path
  if saved ≠ "" ∧ file_exists_nonempty env saved then
    (true, "✓ 保存OK: " ++ os_basename saved, "OK", [])
  else
    (false, "❌ まだ保存が検出できません", "RENDER_NOT_SAVED",
     ["F12 でレンダー → Render Result で Image > Save As...",
      "（補助:「補助: レンダーして保存（自動）」でもOK）"])

/-- `StageManager.validate_stage` (`__init__.py` lines 614-794).  The result
pairs the returned 4-tuple with the session state after the call: the only
write the source performs is the chapter-6 stage clamp (lines 783-784).
A stage number a chapter block does not match falls through every later
chapter test to the final UNKNOWN return, as in the source. -/
def validate_stage (p : Props) (env : Env) : VOut × Props :=
  let obj := env.active_object
  if p.current_chapter = 1 then (validate_ch1 p.current_stage obj p, p)
  else if p.current_chapter = 2 then (validate_ch2 p.current_stage p env, p)
  else if p.current_chapter = 3 then (validate_ch3 p.current_stage obj p env, p)
  else if p.current_chapter = 4 then (validate_ch4 p.current_stage p env, p)
  else if p.current_chapter = 5 then (validate_ch5 p.current_stage obj, p)
  else if p.current_chapter = 6 then
    let p1 := if p.current_stage ≠ 1 then { p with current_stage := 1 } else p
    (validate_ch6 p1 env, p1)
  else (vUnknown, p)

/-! ### Participant log files

The file system is explicit: a list of `(path, lines)` pairs, a line being
one logged event (`json.dumps(...) + newline` in the source).  `bpy.path.abspath`
is the identity; directory creation and the two ways a write can fail are
oracles carried by `World`. -/

/-- The file system: path to lines, in creation order. -/
abbrev FSys := List (String × List WEvent)

/-- `open(path, "a")` followed by one `write`: create the file when absent,
append the line otherwise. -/
def fs_append (fs : FSys) (path : String) (line : WEvent) : FSys :=
  if (alookup path fs).isSome then aupd path (fun ls => ls ++ [line]) fs
  else fs ++ [(path, [line])]

/-- The ambient host state `ensure_participant_log_file` reads: the clock,
its `strftime` rendering, the two version strings, and whether directory
creation / file writes succeed. -/
structure World where
  now : ℚ
  now_str : String
  blender_version : String
  addon_version : String
  mkdir_ok : Bool
  write_ok : Bool

/-- `StageManager.default_log_dir` (lines 91-95), POSIX branch:
`os.path.join` of the home marker and the log folder plus the separator. -/
def default_log_dir : String := "~/tutorial_logs/"

/-- `os.path.join(dir_abs, filename)` on the paths built here. -/
def path_join (d f : String) : String :=
  if d.endsWith "/" then d ++ f else d ++ "/" ++ f

/-- `StageManager.ensure_participant_log_file` (`__init__.py` lines 136-183):
reject an empty sanitized id; default a blank log dir; fail on directory
creation failure; reuse `participant_log_path` when it is set and the file
still exists; otherwise create `{pid}_{timestamp}.jsonl`, write the
`session_start` line, and remember the path.  Returns
`(ok, props, file system)`; the Japanese error strings stand for the
messages the source formats (the exception detail is not modelled). -/
def ensure_participant_log_file (p : Props) (fs : FSys) (w : World) :
    Bool × Props × FSys :=
  let pid := safe_participant_id p.participant_id
  if pid = "" then
    (false, { p with participant_log_error := "参加者IDが未入力です" }, fs)
  else
    let p := if py_strip p.log_dir = "" then { p with log_dir := default_log_dir } else p
    if ¬ w.mkdir_ok then
      (false, { p with participant_log_error := "ログ保存フォルダ作成に失敗" }, fs)
    else if p.participant_log_path ≠ "" ∧ (alookup p.participant_log_path fs).isSome then
      (true, { p with participant_log_error := "" }, fs)
    else
      let log_path := path_join p.log_dir (pid ++ "_" ++ w.now_str ++ ".jsonl")
      if ¬ w.write_ok then
        (false, { p with participant_log_error := "ログファイル作成に失敗" }, fs)
      else
        (true,
         { p with participant_log_path := log_path, participant_log_error := "" },
         fs_append fs log_path
           (.session_start w.now pid w.blender_version w.addon_version))

/-- `StageManager.append_participant_event` (`__init__.py` lines 185-196):
no-op when logging is disabled; otherwise ensure the log file and append one
line to the remembered path, recording a sticky error when the write fails. -/
def append_participant_event (p : Props) (fs : FSys) (w : World) (ev : WEvent) :
    Props × FSys :=
  if ¬ p.enable_participant_logging then (p, fs)
  else
    let r := ensure_participant_log_file p fs w
    if r.1 = false then (r.2.1, r.2.2)
    else if ¬ w.write_ok then
      ({ r.2.1 with participant_log_error := "ログ書き込みに失敗" }, r.2.2)
    else (r.2.1, fs_append r.2.2 r.2.1.participant_log_path ev)

/-! ### Spec-side characterisations of the aggregation -/

/-- A `validate` event for key `k` whose `ok` field is the JSON literal
`false` (the operator's `ev.get("ok") is False` test). -/
def failvalP (k : Int × Int) (ev : PEvent) : Prop :=
  ev.event = some "validate" ∧ ev.chapter = some k.1 ∧ ev.stage = some k.2 ∧
    ev.ok = some false

instance (k : Int × Int) (ev : PEvent) : Decidable (failvalP k ev) := by
  unfold failvalP
  infer_instance

/-- A `finalize` event for key `k`. -/
def finforP (k : Int × Int) (ev : PEvent) : Prop :=
  ev.event = some "finalize" ∧ ev.chapter = some k.1 ∧ ev.stage = some k.2

instance (k : Int × Int) (ev : PEvent) : Decidable (finforP k ev) := by
  unfold finforP
  infer_instance

/-- A `validate` or `finalize` event for key `k` — exactly the events from
which the operator forms the group `k`. -/
def vfforP (k : Int × Int) (ev : PEvent) : Prop :=
  (ev.event = some "validate" ∨ ev.event = some "finalize") ∧
    ev.chapter = some k.1 ∧ ev.stage = some k.2

instance (k : Int × Int) (ev : PEvent) : Decidable (vfforP k ev) := by
  unfold vfforP
  infer_instance

/-- A `validate`, `finalize` or `setup` event for key `k` — the events from
which the standalone script forms the group `k`. -/
def vfsforP (k : Int × Int) (ev : PEvent) : Prop :=
  (ev.event = some "validate" ∨ ev.event = some "finalize" ∨ ev.event = some "setup") ∧
    ev.chapter = some k.1 ∧ ev.stage = some k.2

instance (k : Int × Int) (ev : PEvent) : Decidable (vfsforP k ev) := by
  unfold vfsforP
  infer_instance

/-- Spec-side failure count of group `k`. -/
def op_failures_spec (k : Int × Int) (evs : List PEvent) : Nat :=
  evs.countP (fun ev => decide (failvalP k ev))

/-- One step of the last-write-wins resolution of `stalled_seconds`. -/
def stall_step (k : Int × Int) (acc : Option ℚ) (ev : PEvent) : Option ℚ :=
  if finforP k ev then
    match ev.stalled_seconds with
    | some q => some q
    | none => acc
  else acc

/-- Spec-side `stalled_seconds` of group `k`: the last non-`None` value among
the group's `finalize` events. -/
def op_stalled_spec (k : Int × Int) (evs : List PEvent) : Option ℚ :=
  evs.foldl (stall_step k) none

/-- One step of the last-write-wins resolution of `completed`. -/
def comp_step (k : Int × Int) (acc : Option Bool) (ev : PEvent) : Option Bool :=
  if finforP k ev then
    match ev.completed with
    | some b => some b
    | none => acc
  else acc

/-- Spec-side `completed` of group `k`. -/
def op_completed_spec (k : Int × Int) (evs : List PEvent) : Option Bool :=
  evs.foldl (comp_step k) none

/-- The transformation one event applies to its group's row (the spec-side
image of the body of the operator's loop). -/
def row_step (r : OpRow) (ev : PEvent) : OpRow :=
  let r1 := if ev.event = some "validate" ∧ ev.ok = some false then
              { r with failures := r.failures + 1 }
            else r
  if ev.event = some "finalize" then
    let r2 := match ev.stalled_seconds with
              | some q => { r1 with stalled_seconds := some q }
              | none => r1
    match ev.completed with
    | some b => { r2 with completed := some b }
    | none => r2
  else r1

/-! ### Association-list lemmas -/

theorem alookup_aupd {κ α : Type} [DecidableEq κ] (k k' : κ) (f : α → α)
    (m : List (κ × α)) :
    alookup k (aupd k' f m) =
      if k' = k then (alookup k m).map f else alookup k m := by
  induction m with
  | nil => simp [alookup, aupd]
  | cons e rest ih =>
    obtain ⟨k₀, v⟩ := e
    by_cases h0 : k₀ = k
    · subst h0
      by_cases h1 : k₀ = k'
      · subst h1
        simp [alookup, aupd]
      · simp [alookup, aupd, h1, Ne.symm h1]
    · simp [alookup, aupd, h0, ih]

theorem alookup_append_single {κ α : Type} [DecidableEq κ] (k k' : κ) (r : α)
    (m : List (κ × α)) :
    alookup k (m ++ [(k', r)]) =
      match alookup k m with
      | some v => some v
      | none => if k' = k then some r else none := by
  induction m with
  | nil => simp [alookup]
  | cons e rest ih =>
    obtain ⟨k₀, v⟩ := e
    by_cases h0 : k₀ = k
    · simp [alookup, h0]
    · simp [alookup, h0, ih]

theorem map_fst_aupd {κ α : Type} [DecidableEq κ] (k : κ) (f : α → α)
    (m : List (κ × α)) :
    (aupd k f m).map Prod.fst = m.map Prod.fst := by
  induction m with
  | nil => rfl
  | cons e rest ih =>
    obtain ⟨k₀, v⟩ := e
    simp [aupd, ih]

theorem alookup_isSome_iff_mem {κ α : Type} [DecidableEq κ] (k : κ)
    (m : List (κ × α)) :
    (alookup k m).isSome ↔ k ∈ m.map Prod.fst := by
  induction m with
  | nil => simp [alookup]
  | cons e rest ih =>
    obtain ⟨k₀, v⟩ := e
    by_cases h0 : k₀ = k
    · simp [alookup, h0]
    · simp [alookup, h0, ih, Ne.symm h0]

/-! ### The grouping invariant of the operator's aggregation -/

theorem pkey_eq_some {ev : PEvent} {k : Int × Int} :
    pkey ev = some k ↔ ev.chapter = some k.1 ∧ ev.stage = some k.2 := by
  obtain ⟨e, ch, st, o, c, s⟩ := ev
  obtain ⟨k1, k2⟩ := k
  cases ch <;> cases st <;> simp [pkey, Prod.ext_iff]

theorem opStep_not_vf (m : List ((Int × Int) × OpRow)) (ev : PEvent)
    (h : ¬ (ev.event = some "validate" ∨ ev.event = some "finalize")) :
    opStep m ev = m := by
  simp [opStep, h]

theorem opStep_no_key (m : List ((Int × Int) × OpRow)) (ev : PEvent)
    (h : pkey ev = none) : opStep m ev = m := by
  unfold opStep
  rw [h]
  split <;> rfl

theorem alookup_opStep_other (m : List ((Int × Int) × OpRow)) (ev : PEvent)
    (k key : Int × Int) (hpk : pkey ev = some key) (hne : key ≠ k) :
    alookup k (opStep m ev) = alookup k m := by
  unfold opStep
  rw [hpk]
  split
  · have hbase :
        alookup k (if (alookup key m).isSome then m
                   else m ++ [(key, ⟨key.1, key.2, 0, none, none⟩)]) = alookup k m := by
      split
      · rfl
      · rw [alookup_append_single]
        cases halm : alookup k m <;> simp [hne]
    split_ifs <;>
      cases ev.stalled_seconds <;> cases ev.completed <;>
      simp [alookup_aupd, hne, hbase]
  · rfl

theorem alookup_opStep_self (m : List ((Int × Int) × OpRow)) (ev : PEvent)
    (k : Int × Int)
    (hvf : ev.event = some "validate" ∨ ev.event = some "finalize")
    (hpk : pkey ev = some k) :
    alookup k (opStep m ev) =
      some (row_step ((alookup k m).getD ⟨k.1, k.2, 0, none, none⟩) ev) := by
  unfold opStep row_step
  rw [hpk, if_pos hvf]
  cases halm : alookup k m with
  | some r =>
    simp only [halm, Option.isSome_some, if_true, Option.getD_some]
    split_ifs <;>
      cases ev.stalled_seconds <;> cases ev.completed <;>
      simp_all [alookup_aupd]
  | none =>
    have h1 : alookup k (m ++ [(k, (⟨k.1, k.2, 0, none, none⟩ : OpRow))]) =
        some ⟨k.1, k.2, 0, none, none⟩ := by
      rw [alookup_append_single, halm]
      simp
    simp only [halm, Option.isSome_none, Bool.false_eq_true, if_false, Option.getD_none]
    split_ifs <;>
      cases ev.stalled_seconds <;> cases ev.completed <;>
      simp_all [alookup_aupd, h1]

theorem op_by_stage_snoc (evs : List PEvent) (ev : PEvent) :
    op_by_stage (evs ++ [ev]) = opStep (op_by_stage evs) ev := by
  simp [op_by_stage]

theorem op_failures_spec_snoc (k : Int × Int) (evs : List PEvent) (ev : PEvent) :
    op_failures_spec k (evs ++ [ev]) =
      op_failures_spec k evs + (if failvalP k ev then 1 else 0) := by
  simp [op_failures_spec, List.countP_append, List.countP_cons]

theorem op_stalled_spec_snoc (k : Int × Int) (evs : List PEvent) (ev : PEvent) :
    op_stalled_spec k (evs ++ [ev]) = stall_step k (op_stalled_spec k evs) ev := by
  simp [op_stalled_spec]

theorem op_completed_spec_snoc (k : Int × Int) (evs : List PEvent) (ev : PEvent) :
    op_completed_spec k (evs ++ [ev]) = comp_step k (op_completed_spec k evs) ev := by
  simp [op_completed_spec]

theorem failvalP_vffor {k : Int × Int} {ev : PEvent} (h : failvalP k ev) :
    vfforP k ev :=
  ⟨Or.inl h.1, h.2.1, h.2.2.1⟩

theorem finforP_vffor {k : Int × Int} {ev : PEvent} (h : finforP k ev) :
    vfforP k ev :=
  ⟨Or.inr h.1, h.2.1, h.2.2⟩

theorem foldl_stall_step_of_none {k : Int × Int} {evs : List PEvent}
    (h : ∀ ev ∈ evs, ¬ finforP k ev) (acc : Option ℚ) :
    evs.foldl (stall_step k) acc = acc := by
  induction evs generalizing acc with
  | nil => rfl
  | cons a l ih =>
    rw [List.foldl_cons]
    rw [show stall_step k acc a = acc from if_neg (h a (List.mem_cons_self a l))]
    exact ih (fun ev hev => h ev (List.mem_cons_of_mem a hev)) acc

theorem foldl_comp_step_of_none {k : Int × Int} {evs : List PEvent}
    (h : ∀ ev ∈ evs, ¬ finforP k ev) (acc : Option Bool) :
    evs.foldl (comp_step k) acc = acc := by
  induction evs generalizing acc with
  | nil => rfl
  | cons a l ih =>
    rw [List.foldl_cons]
    rw [show comp_step k acc a = acc from if_neg (h a (List.mem_cons_self a l))]
    exact ih (fun ev hev => h ev (List.mem_cons_of_mem a hev)) acc

theorem op_specs_default {k : Int × Int} {evs : List PEvent}
    (h : evs.any (fun ev => decide (vfforP k ev)) = false) :
    op_failures_spec k evs = 0 ∧ op_stalled_spec k evs = none ∧
      op_completed_spec k evs = none := by
  have hall : ∀ ev ∈ evs, ¬ vfforP k ev := by
    simpa using h
  refine ⟨?_, ?_, ?_⟩
  · refine List.countP_eq_zero.mpr ?_
    intro ev hev
    simpa using fun hf => hall ev hev (failvalP_vffor hf)
  · exact foldl_stall_step_of_none
      (fun ev hev hf => hall ev hev (finforP_vffor hf)) none
  · exact foldl_comp_step_of_none
      (fun ev hev hf => hall ev hev (finforP_vffor hf)) none

theorem row_step_spec {k : Int × Int} {ev : PEvent}
    (hch : ev.chapter = some k.1) (hst : ev.stage = some k.2)
    (F : Nat) (S : Option ℚ) (C : Option Bool) :
    row_step ⟨k.1, k.2, F, S, C⟩ ev =
      ⟨k.1, k.2, F + (if failvalP k ev then 1 else 0),
       stall_step k S ev, comp_step k C ev⟩ := by
  unfold row_step stall_step comp_step failvalP finforP
  split_ifs <;>
    cases ev.stalled_seconds <;> cases ev.completed <;>
    simp_all

/-- The grouping invariant: after the whole loop, the group `k` is present
exactly when a keyed `validate`/`finalize` event for `k` occurred, and its
row then carries the spec-side failure count and the last-write-wins
`stalled_seconds`/`completed`. -/
theorem op_lookup_eq (k : Int × Int) (evs : List PEvent) :
    alookup k (op_by_stage evs) =
      if evs.any (fun ev => decide (vfforP k ev)) then
        some ⟨k.1, k.2, op_failures_spec k evs, op_stalled_spec k evs,
              op_completed_spec k evs⟩
      else none := by
  induction evs using List.reverseRecOn with
  | nil => simp [op_by_stage, alookup]
  | append_singleton evs ev ih =>
    rw [op_by_stage_snoc, op_failures_spec_snoc, op_stalled_spec_snoc,
        op_completed_spec_snoc]
    by_cases hvf : ev.event = some "validate" ∨ ev.event = some "finalize"
    · cases hpk : pkey ev with
      | none =>
        have hch : ev.chapter = none ∨ ev.stage = none := by
          obtain ⟨e, ch, st, o, c, s⟩ := ev
          cases ch <;> cases st <;> simp_all [pkey]
        have hnv : ¬ vfforP k ev := by
          rcases hch with h | h <;> intro hc <;> simp [vfforP, h] at hc
        have hnf : ¬ failvalP k ev := fun hc => hnv (failvalP_vffor hc)
        have hnfin : ¬ finforP k ev := fun hc => hnv (finforP_vffor hc)
        rw [opStep_no_key _ _ hpk, ih]
        simp [hnv, hnf, hnfin, stall_step, comp_step]
      | some key =>
        by_cases hkey : key = k
        · subst hkey
          have hck : ev.chapter = some key.1 ∧ ev.stage = some key.2 :=
            pkey_eq_some.mp hpk
          have hvfk : vfforP key ev := ⟨hvf, hck.1, hck.2⟩
          rw [alookup_opStep_self (op_by_stage evs) ev key hvf hpk, ih]
          by_cases hany : evs.any (fun e => decide (vfforP key e))
          · rw [if_pos hany]
            simp only [Option.getD_some]
            rw [row_step_spec hck.1 hck.2]
            simp [hany, hvfk]
          · rw [if_neg hany]
            obtain ⟨hF, hS, hC⟩ :=
              @op_specs_default key evs (by simpa using hany)
            simp only [Option.getD_none]
            rw [row_step_spec hck.1 hck.2]
            simp [hany, hvfk, hF, hS, hC]
        · have hnv : ¬ vfforP k ev := by
            intro hc
            exact hkey (by
              have : pkey ev = some k := pkey_eq_some.mpr ⟨hc.2.1, hc.2.2⟩
              rw [hpk] at this
              exact (Option.some_injective _ this))
          have hnf : ¬ failvalP k ev := fun hc => hnv (failvalP_vffor hc)
          have hnfin : ¬ finforP k ev := fun hc => hnv (finforP_vffor hc)
          rw [alookup_opStep_other _ ev k key hpk hkey, ih]
          simp [hnv, hnf, hnfin, stall_step, comp_step]
    · have hnv : ¬ vfforP k ev := fun hc => hvf hc.1
      have hnf : ¬ failvalP k ev := fun hc => hvf (Or.inl hc.1)
      have hnfin : ¬ finforP k ev := fun hc => hvf (Or.inr hc.1)
      rw [opStep_not_vf _ _ hvf, ih]
      simp [hnv, hnf, hnfin, stall_step, comp_step]

/-- The last `finalize` event of group `k` in the log. -/
def last_finalize (k : Int × Int) (evs : List PEvent) : Option PEvent :=
  (evs.filter (fun ev => decide (finforP k ev))).getLast?

/-- When every `finalize` event of the group carries a `stalled_seconds`
value, the resolved `stalled_seconds` is the last such event's value. -/
theorem op_stalled_eq_last (k : Int × Int) (evs : List PEvent)
    (h : ∀ ev ∈ evs, finforP k ev → ev.stalled_seconds ≠ none) :
    op_stalled_spec k evs = (last_finalize k evs).bind (fun ev => ev.stalled_seconds) := by
  induction evs using List.reverseRecOn with
  | nil => rfl
  | append_singleton evs ev ih =>
    have hprev : ∀ e ∈ evs, finforP k e → e.stalled_seconds ≠ none :=
      fun e he => h e (List.mem_append_left _ he)
    rw [op_stalled_spec_snoc]
    by_cases hf : finforP k ev
    · have hne : ev.stalled_seconds ≠ none :=
        h ev (List.mem_append_right _ (List.mem_singleton_self ev)) hf
      cases hs : ev.stalled_seconds with
      | none => exact absurd hs hne
      | some q =>
        simp [stall_step, hf, hs, last_finalize, List.filter_append]
    · simp [stall_step, hf, last_finalize, List.filter_append, ih hprev]

/-- Likewise for `completed`. -/
theorem op_completed_eq_last (k : Int × Int) (evs : List PEvent)
    (h : ∀ ev ∈ evs, finforP k ev → ev.completed ≠ none) :
    op_completed_spec k evs = (last_finalize k evs).bind (fun ev => ev.completed) := by
  induction evs using List.reverseRecOn with
  | nil => rfl
  | append_singleton evs ev ih =>
    have hprev : ∀ e ∈ evs, finforP k e → e.completed ≠ none :=
      fun e he => h e (List.mem_append_left _ he)
    rw [op_completed_spec_snoc]
    by_cases hf : finforP k ev
    · have hne : ev.completed ≠ none :=
        h ev (List.mem_append_right _ (List.mem_singleton_self ev)) hf
      cases hs : ev.completed with
      | none => exact absurd hs hne
      | some b =>
        simp [comp_step, hf, hs, last_finalize, List.filter_append]
    · simp [comp_step, hf, last_finalize, List.filter_append, ih hprev]

/-! ### The script's grouping: which groups get a row -/

theorem scriptStep_not_vfs (m : List ((Int × Int) × ScriptRow)) (ev : PEvent)
    (h : ¬ (ev.event = some "validate" ∨ ev.event = some "finalize" ∨
            ev.event = some "setup")) :
    scriptStep m ev = m := by
  simp [scriptStep, h]

theorem scriptStep_no_key (m : List ((Int × Int) × ScriptRow)) (ev : PEvent)
    (h : pkey ev = none) : scriptStep m ev = m := by
  unfold scriptStep
  rw [h]
  split <;> rfl

theorem alookup_scriptStep_other (m : List ((Int × Int) × ScriptRow)) (ev : PEvent)
    (k key : Int × Int) (hpk : pkey ev = some key) (hne : key ≠ k) :
    alookup k (scriptStep m ev) = alookup k m := by
  unfold scriptStep
  rw [hpk]
  split
  · have hbase :
        alookup k (if (alookup key m).isSome then m
                   else m ++ [(key, ⟨key.1, key.2, 0, 0, ""⟩)]) = alookup k m := by
      split
      · rfl
      · rw [alookup_append_single]
        cases halm : alookup k m <;> simp [hne]
    split_ifs <;>
      cases ev.stalled_seconds <;> cases ev.completed <;>
      simp [alookup_aupd, hne, hbase]
  · rfl

theorem alookup_scriptStep_self_isSome (m : List ((Int × Int) × ScriptRow))
    (ev : PEvent) (k : Int × Int)
    (hvfs : ev.event = some "validate" ∨ ev.event = some "finalize" ∨
            ev.event = some "setup")
    (hpk : pkey ev = some k) :
    (alookup k (scriptStep m ev)).isSome := by
  unfold scriptStep
  rw [hpk, if_pos hvfs]
  have hm1 : (alookup k (if (alookup k m).isSome then m
                         else m ++ [(k, ⟨k.1, k.2, 0, 0, ""⟩)])).isSome := by
    cases halm : alookup k m with
    | some r => simp [halm]
    | none =>
      rw [if_neg (by simp [halm])]
      rw [alookup_append_single, halm]
      simp
  split_ifs <;>
    cases ev.stalled_seconds <;> cases ev.completed <;>
    simp_all [alookup_aupd]

theorem script_by_stage_snoc (evs : List PEvent) (ev : PEvent) :
    script_by_stage (evs ++ [ev]) = scriptStep (script_by_stage evs) ev := by
  simp [script_by_stage]

/-- The script creates a row for `k` exactly when a keyed `validate`,
`finalize` or `setup` event for `k` occurred. -/
theorem script_lookup_isSome_iff (k : Int × Int) (evs : List PEvent) :
    (alookup k (script_by_stage evs)).isSome ↔ ∃ ev ∈ evs, vfsforP k ev := by
  induction evs using List.reverseRecOn with
  | nil => simp [script_by_stage, alookup]
  | append_singleton evs ev ih =>
    rw [script_by_stage_snoc]
    by_cases hvfs : ev.event = some "validate" ∨ ev.event = some "finalize" ∨
        ev.event = some "setup"
    · cases hpk : pkey ev with
      | none =>
        have hch : ev.chapter = none ∨ ev.stage = none := by
          obtain ⟨e, ch, st, o, c, s⟩ := ev
          cases ch <;> cases st <;> simp_all [pkey]
        have hnv : ¬ vfsforP k ev := by
          rcases hch with h | h <;> intro hc <;> simp [vfsforP, h] at hc
        rw [scriptStep_no_key _ _ hpk]
        simp only [ih]
        constructor
        · rintro ⟨e, he, hp⟩
          exact ⟨e, List.mem_append_left _ he, hp⟩
        · rintro ⟨e, he, hp⟩
          rcases List.mem_append.mp he with he | he
          · exact ⟨e, he, hp⟩
          · rw [List.mem_singleton.mp he] at hp
            exact absurd hp hnv
      | some key =>
        by_cases hkey : key = k
        · subst hkey
          have hck : ev.chapter = some key.1 ∧ ev.stage = some key.2 :=
            pkey_eq_some.mp hpk
          have hvfk : vfsforP key ev := ⟨hvfs, hck.1, hck.2⟩
          simp only [alookup_scriptStep_self_isSome (script_by_stage evs) ev key hvfs hpk,
                     true_iff]
          exact ⟨ev, List.mem_append_right _ (List.mem_singleton_self ev), hvfk⟩
        · have hnv : ¬ vfsforP k ev := by
            intro hc
            exact hkey (by
              have : pkey ev = some k := pkey_eq_some.mpr ⟨hc.2.1, hc.2.2⟩
              rw [hpk] at this
              exact (Option.some_injective _ this))
          rw [alookup_scriptStep_other _ ev k key hpk hkey]
          simp only [ih]
          constructor
          · rintro ⟨e, he, hp⟩
            exact ⟨e, List.mem_append_left _ he, hp⟩
          · rintro ⟨e, he, hp⟩
            rcases List.mem_append.mp he with he | he
            · exact ⟨e, he, hp⟩
            · rw [List.mem_singleton.mp he] at hp
              exact absurd hp hnv
    · have hnv : ¬ vfsforP k ev := fun hc => hvfs hc.1
      rw [scriptStep_not_vfs _ _ hvfs]
      simp only [ih]
      constructor
      · rintro ⟨e, he, hp⟩
        exact ⟨e, List.mem_append_left _ he, hp⟩
      · rintro ⟨e, he, hp⟩
        rcases List.mem_append.mp he with he | he
        · exact ⟨e, he, hp⟩
        · rw [List.mem_singleton.mp he] at hp
          exact absurd hp hnv

/-! ### The operator's dict holds each key once -/

theorem nodup_keys_opStep (m : List ((Int × Int) × OpRow)) (ev : PEvent)
    (h : (m.map Prod.fst).Nodup) : ((opStep m ev).map Prod.fst).Nodup := by
  unfold opStep
  split
  · cases hpk : pkey ev with
    | none => exact h
    | some key =>
      have hm1 : ((if (alookup key m).isSome then m
                   else m ++ [(key, (⟨key.1, key.2, 0, none, none⟩ : OpRow))]).map
                     Prod.fst).Nodup := by
        split
        · exact h
        · rename_i hs
          have hmem : key ∉ m.map Prod.fst := by
            rw [← alookup_isSome_iff_mem]
            simpa using hs
          simp [List.nodup_append, h, hmem]
      split_ifs <;>
        cases ev.stalled_seconds <;> cases ev.completed <;>
        simp_all [map_fst_aupd]
  · exact h

theorem nodup_keys_op_by_stage (evs : List PEvent) :
    ((op_by_stage evs).map Prod.fst).Nodup := by
  induction evs using List.reverseRecOn with
  | nil => simp [op_by_stage]
  | append_singleton evs ev ih =>
    rw [op_by_stage_snoc]
    exact nodup_keys_opStep _ ev ih

/-! ### Concrete states and logs used by the claims -/

/-- A failed/passing `validate` event of the spec scenario, group `(1, 1)`. -/
def sc_validate (okv : Bool) : PEvent :=
  ⟨some "validate", some 1, some 1, some okv, none, none⟩

/-- A `finalize` event of the spec scenario, group `(1, 1)`. -/
def sc_finalize (c : Bool) (q : ℚ) : PEvent :=
  ⟨some "finalize", some 1, some 1, none, some c, some q⟩

/-- The `setup` event of the spec scenario. -/
def sc_setup : PEvent := ⟨some "setup", some 1, some 1, none, none, none⟩

/-- A `session_start` line as the aggregators would parse it. -/
def sc_session_start : PEvent := ⟨some "session_start", none, none, none, none, none⟩

/-- The spec's concrete scenario: two failed validates, an abandoning
finalize at 12.5 s, a retry (`setup`), one passing validate, a completing
finalize at 3 s. -/
def scenario_log : List PEvent :=
  [sc_validate false, sc_validate false, sc_finalize false (25/2),
   sc_setup, sc_validate true, sc_finalize true 3]

/-- A session state with every property at its declared default. -/
def props_base : Props :=
  { current_chapter := 1, current_stage := 1, stage_complete := false,
    monitoring_active := false, initial_position := (0, 0, 0),
    initial_rotation := (0, 0, 0), initial_scale := (1, 1, 1),
    initial_view_distance := 0, initial_view_location := (0, 0, 0),
    initial_vertex_count := 0, initial_edge_count := 0, initial_face_count := 0,
    initial_vertex_positions := [], failed_validate_count := 0,
    stage_start_time := 0, last_result_ok := true, last_reason := "",
    last_message := "", last_hints := "", stage_runs := [],
    current_stall_seconds := 0, enable_participant_logging := true,
    participant_id := "", log_dir := default_log_dir,
    participant_log_path := "", participant_log_error := "",
    final_render_saved_path := "" }

/-- An empty environment snapshot. -/
def env0 : Env :=
  ⟨none, "OBJECT", none, (false, false, false), [], ⟨[], [], []⟩, none, []⟩

/-- A state mid-stage: the stage started at `t = 5`. -/
def p_started : Props := { props_base with stage_start_time := 5 }

/-- A default run record. -/
def run0 : StageRunR := ⟨1, 1, false, "", "", 0, 0, 0, 0⟩

/-- A state at the last stage of the last chapter, mid-stage, with a failure
count, a completed flag and outcome fields set. -/
def p_term : Props :=
  { props_base with
    current_chapter := 6, current_stage := 1,
    stage_start_time := 5, failed_validate_count := 3, stage_complete := true,
    last_reason := "R", last_message := "M", last_hints := "h" }

/-- A scene with a camera and one light, for the turn-off cleanup. -/
def scene0 : Scene := ⟨some "Cam", [⟨"Sun", "LIGHT", false, false⟩]⟩


/-! ### Shape lemmas for `finalize_current_run` -/

theorem finalize_run_shape (p : Props) (c : Bool) (now : ℚ)
    (h : 0 < p.stage_start_time) :
    (finalize_current_run p c now).1 =
      { p with stage_runs :=
          if 500 < p.stage_runs.length + 1 then
            (p.stage_runs ++ [mk_run p c now]).drop (p.stage_runs.length + 1 - 500)
          else p.stage_runs ++ [mk_run p c now] } ∧
    (finalize_current_run p c now).2 =
      some (mk_finalize_event p c (max 0 (now - p.stage_start_time)) now) := by
  unfold finalize_current_run
  rw [if_neg (not_le.mpr h)]
  simp

theorem finalize_len (p : Props) (c : Bool) (now : ℚ)
    (h : 0 < p.stage_start_time) :
    (finalize_current_run p c now).1.stage_runs.length =
      min (p.stage_runs.length + 1) 500 := by
  rw [(finalize_run_shape p c now h).1]
  by_cases h5 : 500 < p.stage_runs.length + 1 <;>
    simp [h5] <;> omega

/-- `finalize_current_run` touches only `stage_runs`; in particular it does
not clear `stage_start_time`. -/
theorem finalize_fields (p : Props) (c : Bool) (now : ℚ) :
    (finalize_current_run p c now).1.current_chapter = p.current_chapter ∧
    (finalize_current_run p c now).1.current_stage = p.current_stage ∧
    (finalize_current_run p c now).1.failed_validate_count = p.failed_validate_count ∧
    (finalize_current_run p c now).1.stage_complete = p.stage_complete ∧
    (finalize_current_run p c now).1.monitoring_active = p.monitoring_active ∧
    (finalize_current_run p c now).1.last_reason = p.last_reason ∧
    (finalize_current_run p c now).1.last_message = p.last_message ∧
    (finalize_current_run p c now).1.last_hints = p.last_hints ∧
    (finalize_current_run p c now).1.stage_start_time = p.stage_start_time := by
  unfold finalize_current_run
  split <;> simp

/-- The stage count the escalation policy cuts to (`≤1 → 1`, `=2 → 2`,
`≥3 → 3`), stated from the spec's words for comparison with the source. -/
def escalation_level (n : Nat) : Nat :=
  if n ≤ 1 then 1 else if n = 2 then 2 else 3

/-- C8: for every hint list and failure count `n`, hint escalation returns
exactly the first `min(k, len(hints))` hints with `k = 1` for `n ≤ 1`,
`k = 2` for `n = 2` and `k = 3` for `n ≥ 3`; its length is monotone in `n`
and never exceeds `min(3, len(hints))`. -/
theorem C8_hint_escalation :
    ∀ (hints : List String) (n m : Nat), n ≤ m →
      apply_hint_escalation hints n = hints.take (escalation_level n) ∧
      (apply_hint_escalation hints n).length = min (escalation_level n) hints.length ∧
      (apply_hint_escalation hints n).length ≤ (apply_hint_escalation hints m).length ∧
      (apply_hint_escalation hints n).length ≤ min 3 hints.length := by
  have htake : ∀ (hints : List String) (n : Nat),
      apply_hint_escalation hints n = hints.take (escalation_level n) := by
    intro hints n
    unfold apply_hint_escalation escalation_level
    split_ifs <;> simp_all
  have hlvl3 : ∀ n, escalation_level n ≤ 3 := by
    intro n
    unfold escalation_level
    split_ifs <;> omega
  have hmono : ∀ n m, n ≤ m → escalation_level n ≤ escalation_level m := by
    intro n m h
    unfold escalation_level
    split_ifs <;> omega
  intro hints n m hnm
  refine ⟨htake hints n, ?_, ?_, ?_⟩
  · rw [htake hints n, List.length_take]
  · rw [htake hints n, htake hints m, List.length_take, List.length_take]
    exact min_le_min (hmono n m hnm) le_rfl
  · rw [htake hints n, List.length_take]
    exact min_le_min (hlvl3 n) le_rfl

theorem C8_hint_escalation_witness :
    apply_hint_escalation ["a", "b", "c", "d"] 2 =
        (["a", "b", "c", "d"] : List String).take (escalation_level 2) ∧
    (apply_hint_escalation ["a", "b", "c", "d"] 2).length =
        min (escalation_level 2) (["a", "b", "c", "d"] : List String).length ∧
    (apply_hint_escalation ["a", "b", "c", "d"] 2).length ≤
        (apply_hint_escalation ["a", "b", "c", "d"] 3).length ∧
    (apply_hint_escalation ["a", "b", "c", "d"] 2).length ≤
        min 3 (["a", "b", "c", "d"] : List String).length :=
  C8_hint_escalation ["a", "b", "c", "d"] 2 3 (by decide)

/-- C2 (amended): `validate_stage` returns its outcome and leaves the session
state unchanged — except that in chapter 6 with `current_stage ≠ 1` it writes
`current_stage := 1` (lines 783-784); it never modifies `current_chapter` or
`failed_validate_count`. -/
theorem C2_validate_stage_state :
    ∀ (p : Props) (env : Env),
      (validate_stage p env).2 =
        (if p.current_chapter = 6 ∧ p.current_stage ≠ 1 then
          { p with current_stage := 1 }
         else p) ∧
      (validate_stage p env).2.current_chapter = p.current_chapter ∧
      (validate_stage p env).2.failed_validate_count = p.failed_validate_count := by
  intro p env
  have hmain : (validate_stage p env).2 =
      if p.current_chapter = 6 ∧ p.current_stage ≠ 1 then
        { p with current_stage := 1 }
      else p := by
    simp only [validate_stage]
    split_ifs <;> simp_all
  refine ⟨hmain, ?_, ?_⟩ <;> rw [hmain] <;> split_ifs <;> rfl

/-- C2 counterexample: at chapter 6, stage 2, `validate_stage` mutates the
session state — `current_stage` becomes 1 — refuting the claim that the state
is left unchanged. -/
theorem C2_state_mutation_counterexample :
    ((validate_stage { props_base with current_chapter := 6, current_stage := 2 }
        env0).2 ≠
      { props_base with current_chapter := 6, current_stage := 2 }) ∧
    (validate_stage { props_base with current_chapter := 6, current_stage := 2 }
        env0).2.current_stage = 1 ∧
    ({ props_base with current_chapter := 6, current_stage := 2 } : Props).current_stage
      = 2 := by
  decide

/-- C5 (amended): `finalize_current_run` is a no-op exactly when
`stage_start_time` is unset (`≤ 0`).  Since the function itself does not
clear `stage_start_time`, a second immediate call — with no intervening
setup or reset — is NOT a no-op: it appends another run and emits another
finalize event.  The no-op on double finalization only arises when the
caller's epilogue zeroes `stage_start_time` between the calls. -/
theorem C5_finalize_noop_guard :
    (∀ (p : Props) (c : Bool) (now : ℚ), p.stage_start_time ≤ 0 →
        finalize_current_run p c now = (p, none)) ∧
    (∀ (p : Props) (c c2 : Bool) (now now2 : ℚ), 0 < p.stage_start_time →
        (finalize_current_run p c now).1.stage_start_time = p.stage_start_time ∧
        (finalize_current_run (finalize_current_run p c now).1 c2 now2).2.isSome
          = true ∧
        (finalize_current_run (finalize_current_run p c now).1 c2 now2).1.stage_runs.length
          = min ((finalize_current_run p c now).1.stage_runs.length + 1) 500) := by
  constructor
  · intro p c now h
    unfold finalize_current_run
    rw [if_pos h]
  · intro p c c2 now now2 h
    have hsst : (finalize_current_run p c now).1.stage_start_time =
        p.stage_start_time := (finalize_fields p c now).2.2.2.2.2.2.2.2
    have h2 : 0 < (finalize_current_run p c now).1.stage_start_time := by
      rw [hsst]; exact h
    refine ⟨hsst, ?_, finalize_len _ c2 now2 h2⟩
    rw [(finalize_run_shape _ c2 now2 h2).2]
    rfl

/-- C5 counterexample: from a mid-stage state, two immediate finalize calls
with no reset in between append two runs — the run-history length changes on
the second call and a second finalize event is emitted. -/
theorem C5_double_finalize_counterexample :
    (finalize_current_run p_started true 6).1.stage_runs.length = 1 ∧
    (finalize_current_run (finalize_current_run p_started true 6).1 true
        7).1.stage_runs.length = 2 ∧
    (finalize_current_run (finalize_current_run p_started true 6).1 true
        7).2.isSome = true := by
  decide

theorem C5_finalize_noop_guard_witness :
    finalize_current_run props_base true 6 = (props_base, none) ∧
    ((finalize_current_run p_started true 6).1.stage_start_time =
        p_started.stage_start_time ∧
     (finalize_current_run (finalize_current_run p_started true 6).1 false
        7).2.isSome = true ∧
     (finalize_current_run (finalize_current_run p_started true 6).1 false
        7).1.stage_runs.length =
       min ((finalize_current_run p_started true 6).1.stage_runs.length + 1) 500) :=
  ⟨C5_finalize_noop_guard.1 props_base true 6 (by decide),
   C5_finalize_noop_guard.2 p_started true false 6 7 (by decide)⟩

/-- C7: the run history is a capacity-500 FIFO: a finalize from a state
within capacity stays within capacity, and a finalize that would append a
501st record evicts exactly the oldest record, leaving exactly 500 with the
survivors' insertion order preserved. -/
theorem C7_history_capacity :
    (∀ (p : Props) (c : Bool) (now : ℚ), p.stage_runs.length ≤ 500 →
        (finalize_current_run p c now).1.stage_runs.length ≤ 500) ∧
    (∀ (p : Props) (c : Bool) (now : ℚ), 0 < p.stage_start_time →
        p.stage_runs.length = 500 →
        (finalize_current_run p c now).1.stage_runs =
          p.stage_runs.drop 1 ++ [mk_run p c now] ∧
        (finalize_current_run p c now).1.stage_runs.length = 500) := by
  constructor
  · intro p c now h
    by_cases hs : p.stage_start_time ≤ 0
    · unfold finalize_current_run
      rw [if_pos hs]
      exact h
    · rw [finalize_len p c now (not_le.mp hs)]
      omega
  · intro p c now h hlen
    refine ⟨?_, ?_⟩
    · rw [(finalize_run_shape p c now h).1]
      show (if 500 < p.stage_runs.length + 1 then
              (p.stage_runs ++ [mk_run p c now]).drop (p.stage_runs.length + 1 - 500)
            else p.stage_runs ++ [mk_run p c now]) = _
      rw [if_pos (by omega), show p.stage_runs.length + 1 - 500 = 1 by omega,
          List.drop_append_of_le_length (by omega)]
    · rw [finalize_len p c now h, hlen]
      omega

/-- A full-capacity state: 500 run records, mid-stage. -/
def p_full : Props :=
  { props_base with
    stage_start_time := 5, stage_runs := List.replicate 500 run0 }

theorem p_full_runs_len : p_full.stage_runs.length = 500 := by
  show (List.replicate 500 run0).length = 500
  rw [List.length_replicate]

theorem C7_history_capacity_witness :
    ((finalize_current_run p_full true 6).1.stage_runs.length ≤ 500) ∧
    ((finalize_current_run p_full true 6).1.stage_runs =
      p_full.stage_runs.drop 1 ++ [mk_run p_full true 6] ∧
     (finalize_current_run p_full true 6).1.stage_runs.length = 500) :=
  ⟨C7_history_capacity.1 p_full true 6 (le_of_eq p_full_runs_len),
   C7_history_capacity.2 p_full true 6 (by decide) p_full_runs_len⟩

/-- C9 (amended): at the last stage of the last chapter, `next_stage`
finalizes with `completed=true`, runs the camera/light turn-off cleanup,
zeroes `stage_start_time`, and returns at once — it does NOT reset
`failed_validate_count` and does NOT clear `stage_complete`, the last
outcome fields or the hints (those resets are only reached on non-terminal
advancement). -/
theorem C9_terminal_advance :
    ∀ (p : Props) (s : Scene) (now : ℚ),
      p.current_chapter = 6 → 1 ≤ p.current_stage →
      next_stage_execute p s now =
        ({ (finalize_current_run p true now).1 with stage_start_time := 0 },
         turn_off_scene_camera_and_lights s,
         (finalize_current_run p true now).2) ∧
      (next_stage_execute p s now).1.failed_validate_count =
        p.failed_validate_count ∧
      (next_stage_execute p s now).1.stage_complete = p.stage_complete ∧
      (next_stage_execute p s now).1.last_reason = p.last_reason ∧
      (next_stage_execute p s now).1.last_message = p.last_message ∧
      (next_stage_execute p s now).1.last_hints = p.last_hints := by
  intro p s now h6 hst
  obtain ⟨hch, hstg, hfail, hcomp, hmon, hlr, hlm, hlh, hsst⟩ :=
    finalize_fields p true now
  have hms : max_stages_per_chapter (finalize_current_run p true now).1.current_chapter
      = 1 := by
    rw [hch, h6]
    decide
  have hnot : ¬ ((finalize_current_run p true now).1.current_stage <
      max_stages_per_chapter (finalize_current_run p true now).1.current_chapter) := by
    rw [hms, hstg]
    omega
  have hnot6 : ¬ ((finalize_current_run p true now).1.current_chapter < 6) := by
    rw [hch, h6]
    omega
  have heq : next_stage_execute p s now =
      ({ (finalize_current_run p true now).1 with stage_start_time := 0 },
       turn_off_scene_camera_and_lights s,
       (finalize_current_run p true now).2) := by
    simp only [next_stage_execute]
    rw [if_neg hnot, if_neg hnot6]
  refine ⟨heq, ?_, ?_, ?_, ?_, ?_⟩ <;> rw [heq]
  · exact hfail
  · exact hcomp
  · exact hlr
  · exact hlm
  · exact hlh

/-- C9 counterexample: at chapter 6 stage 1 with three failures, a completed
flag and hints set, `next_stage` leaves `failed_validate_count = 3`,
`stage_complete = true` and the hints in place (the claim says they are
reset); the cleanup and the `stage_start_time := 0` write do happen. -/
theorem C9_no_reset_counterexample :
    (next_stage_execute p_term scene0 6).1.failed_validate_count = 3 ∧
    (next_stage_execute p_term scene0 6).1.stage_complete = true ∧
    (next_stage_execute p_term scene0 6).1.last_hints = "h" ∧
    (next_stage_execute p_term scene0 6).2.1 =
      ⟨none, [⟨"Sun", "LIGHT", true, true⟩]⟩ ∧
    (next_stage_execute p_term scene0 6).1.stage_start_time = 0 := by
  decide

theorem C9_terminal_advance_witness :
    next_stage_execute p_term scene0 6 =
      ({ (finalize_current_run p_term true 6).1 with stage_start_time := 0 },
       turn_off_scene_camera_and_lights scene0,
       (finalize_current_run p_term true 6).2) ∧
    (next_stage_execute p_term scene0 6).1.failed_validate_count =
      p_term.failed_validate_count ∧
    (next_stage_execute p_term scene0 6).1.stage_complete = p_term.stage_complete ∧
    (next_stage_execute p_term scene0 6).1.last_reason = p_term.last_reason ∧
    (next_stage_execute p_term scene0 6).1.last_message = p_term.last_message ∧
    (next_stage_execute p_term scene0 6).1.last_hints = p_term.last_hints :=
  C9_terminal_advance p_term scene0 6 (by decide) (by decide)

/-- C1: for every log, a group holding a finalize event gets its `failures`
as the count of its failed validates and its `stalled_seconds`/`completed`
from the LAST finalize event (last-write-wins, not summed); and on the
spec's concrete scenario both aggregators produce the single row
`(1, 1, failures = 2, stalled_seconds = 3, completed = true)` with total `3`
(not `15.5`). -/
theorem C1_last_write_wins_aggregation :
    (∀ (evs : List PEvent) (k : Int × Int),
      (∀ ev ∈ evs, finforP k ev → ev.stalled_seconds ≠ none ∧ ev.completed ≠ none) →
      (∃ ev ∈ evs, finforP k ev) →
      ∃ r evf, alookup k (op_by_stage evs) = some r ∧
        last_finalize k evs = some evf ∧
        r.failures = op_failures_spec k evs ∧
        r.stalled_seconds = evf.stalled_seconds ∧
        r.completed = evf.completed) ∧
    op_by_stage scenario_log = [((1, 1), ⟨1, 1, 2, some 3, some true⟩)] ∧
    op_total scenario_log = 3 ∧
    script_by_stage scenario_log = [((1, 1), ⟨1, 1, 2, 3, "True"⟩)] ∧
    script_total scenario_log = 3 := by
  refine ⟨?_, by decide, ?_, by decide, ?_⟩
  · intro evs k hall hfin
    obtain ⟨evx, hmem, hfx⟩ := hfin
    have hany : evs.any (fun ev => decide (vfforP k ev)) = true :=
      List.any_eq_true.mpr ⟨evx, hmem, decide_eq_true (finforP_vffor hfx)⟩
    have hlk := op_lookup_eq k evs
    rw [if_pos hany] at hlk
    have hne : evs.filter (fun ev => decide (finforP k ev)) ≠ [] := by
      intro hnil
      have hx : evx ∈ evs.filter (fun ev => decide (finforP k ev)) :=
        List.mem_filter.mpr ⟨hmem, decide_eq_true hfx⟩
      rw [hnil] at hx
      exact absurd hx (List.not_mem_nil evx)
    obtain ⟨evf, hevf⟩ : ∃ evf, last_finalize k evs = some evf := by
      have hs : (evs.filter (fun ev => decide (finforP k ev))).getLast?.isSome := by
        rw [List.getLast?_isSome]
        exact hne
      exact Option.isSome_iff_exists.mp hs
    refine ⟨_, evf, hlk, hevf, rfl, ?_, ?_⟩
    · show op_stalled_spec k evs = evf.stalled_seconds
      rw [op_stalled_eq_last k evs (fun e he hf => (hall e he hf).1), hevf]
      rfl
    · show op_completed_spec k evs = evf.completed
      rw [op_completed_eq_last k evs (fun e he hf => (hall e he hf).2), hevf]
      rfl
  · norm_num [op_total, op_by_stage, scenario_log, opStep, sc_validate, sc_finalize,
              sc_setup, pkey, alookup, aupd]
  · norm_num [script_total, script_by_stage, scenario_log, scriptStep, sc_validate,
              sc_finalize, sc_setup, pkey, alookup, aupd]

theorem C1_last_write_wins_aggregation_witness :
    ∃ r evf, alookup (1, 1) (op_by_stage scenario_log) = some r ∧
      last_finalize (1, 1) scenario_log = some evf ∧
      r.failures = op_failures_spec (1, 1) scenario_log ∧
      r.stalled_seconds = evf.stalled_seconds ∧
      r.completed = evf.completed :=
  C1_last_write_wins_aggregation.1 scenario_log (1, 1) (by decide) (by decide)

/-- C3 (amended): the operator keeps only `validate` and `finalize` events —
a row exists for a group exactly when it has such an event, and all other
kinds leave the dict untouched; the standalone script additionally keeps
`setup` events, so there a setup-only group does get a row (`session_start`
and other kinds still contribute nothing). -/
theorem C3_event_kind_filter :
    (∀ (m : List ((Int × Int) × OpRow)) (ev : PEvent),
        ¬ (ev.event = some "validate" ∨ ev.event = some "finalize") →
        opStep m ev = m) ∧
    (∀ (evs : List PEvent) (k : Int × Int),
        (alookup k (op_by_stage evs)).isSome ↔ ∃ ev ∈ evs, vfforP k ev) ∧
    (∀ (m : List ((Int × Int) × ScriptRow)) (ev : PEvent),
        ¬ (ev.event = some "validate" ∨ ev.event = some "finalize" ∨
           ev.event = some "setup") →
        scriptStep m ev = m) ∧
    (∀ (evs : List PEvent) (k : Int × Int),
        (alookup k (script_by_stage evs)).isSome ↔ ∃ ev ∈ evs, vfsforP k ev) := by
  refine ⟨opStep_not_vf, ?_, scriptStep_not_vfs,
          fun evs k => script_lookup_isSome_iff k evs⟩
  intro evs k
  rw [op_lookup_eq k evs]
  by_cases h : evs.any (fun ev => decide (vfforP k ev))
  · simp only [if_pos h, Option.isSome_some, true_iff]
    obtain ⟨ev, hm, hp⟩ := List.any_eq_true.mp h
    exact ⟨ev, hm, of_decide_eq_true hp⟩
  · simp only [if_neg h, Option.isSome_none, Bool.false_eq_true, false_iff]
    rintro ⟨ev, hm, hp⟩
    exact h (List.any_eq_true.mpr ⟨ev, hm, decide_eq_true hp⟩)

/-- C3 counterexample: a log holding a single `setup` event for `(1, 1)`
yields a row for `(1, 1)` in the standalone script's aggregation — refuting
"no row exists for a group that has only non-validate/non-finalize events"
— while the operator indeed yields none. -/
theorem C3_setup_creates_row_counterexample :
    alookup (1, 1) (script_by_stage [sc_setup]) = some ⟨1, 1, 0, 0, ""⟩ ∧
    alookup (1, 1) (op_by_stage [sc_setup]) = none := by
  decide

theorem C3_event_kind_filter_witness :
    opStep [] sc_session_start = [] ∧ scriptStep [] sc_session_start = [] :=
  ⟨C3_event_kind_filter.1 [] sc_session_start (by decide),
   C3_event_kind_filter.2.2.1 [] sc_session_start (by decide)⟩

/-- C4: a blank or unparseable line is silently skipped by the shared read
loop (which is total over all line shapes), so appending a truncated line to
a log changes neither the events read nor any aggregation output built from
them. -/
theorem C4_crash_tolerant_read :
    ∀ (ls : List RawLine) (l : RawLine),
      (l = RawLine.blank ∨ l = RawLine.invalid) →
      read_events (ls ++ [l]) = read_events ls ∧
      (∀ logname, op_export_csv (read_events (ls ++ [l])) logname =
          op_export_csv (read_events ls) logname) ∧
      op_total (read_events (ls ++ [l])) = op_total (read_events ls) ∧
      (∀ logname, script_export_csv (read_events (ls ++ [l])) logname =
          script_export_csv (read_events ls) logname) := by
  intro ls l h
  have hre : read_events (ls ++ [l]) = read_events ls := by
    rcases h with rfl | rfl <;> simp [read_events]
  exact ⟨hre, fun _ => by rw [hre], by rw [hre], fun _ => by rw [hre]⟩

theorem C4_crash_tolerant_read_witness :
    read_events [RawLine.valid sc_setup, RawLine.invalid] =
      read_events [RawLine.valid sc_setup] ∧
    op_export_csv (read_events [RawLine.valid sc_setup, RawLine.invalid]) "p.jsonl" =
      op_export_csv (read_events [RawLine.valid sc_setup]) "p.jsonl" :=
  ⟨(C4_crash_tolerant_read [RawLine.valid sc_setup] RawLine.invalid (Or.inr rfl)).1,
   (C4_crash_tolerant_read [RawLine.valid sc_setup] RawLine.invalid
      (Or.inr rfl)).2.1 "p.jsonl"⟩

/-- C6 (amended): the operator's summary CSV is UTF-8 WITH a byte-order mark
and opens with the `participant_log_file` row, the
`total_stalled_seconds_finalize_only` row (three decimals), a blank row and
the `chapter,stage,failures,stalled_seconds_finalize_only,completed` header,
followed by exactly one data row per `(chapter, stage)` group in ascending
key order; the standalone script instead writes plain UTF-8 WITHOUT a BOM
and uses the header names `participant_file` / `total_stalled_seconds` /
`stalled_seconds`. -/
theorem C6_csv_format :
    (∀ (evs : List PEvent) (logname : String),
      (op_export_csv evs logname).bom = true ∧
      (op_export_csv evs logname).rows.take 4 =
        [["participant_log_file", logname],
         ["total_stalled_seconds_finalize_only", fmt_fixed 3 (op_total evs)],
         [],
         ["chapter", "stage", "failures", "stalled_seconds_finalize_only",
          "completed"]] ∧
      (op_export_csv evs logname).rows.length = 4 + (op_by_stage evs).length ∧
      List.Sorted keyLE (sorted_keys (op_by_stage evs)) ∧
      (sorted_keys (op_by_stage evs)).Perm ((op_by_stage evs).map Prod.fst) ∧
      ((op_by_stage evs).map Prod.fst).Nodup ∧
      (∀ k ∈ sorted_keys (op_by_stage evs),
         (alookup k (op_by_stage evs)).isSome)) ∧
    (∀ (evs : List PEvent) (logname : String),
      (script_export_csv evs logname).bom = false ∧
      (script_export_csv evs logname).rows.take 4 =
        [["participant_file", logname],
         ["total_stalled_seconds", fmt_fixed 3 (script_total evs)],
         [],
         ["chapter", "stage", "failures", "stalled_seconds", "completed"]]) := by
  constructor
  · intro evs logname
    refine ⟨rfl, ?_, ?_, List.sorted_insertionSort keyLE _,
            List.perm_insertionSort keyLE _, nodup_keys_op_by_stage evs, ?_⟩
    · show ((_ ++ _ : List (List String))).take 4 = _
      rw [show (4 : Nat) =
            ([["participant_log_file", logname],
              ["total_stalled_seconds_finalize_only", fmt_fixed 3 (op_total evs)],
              [],
              ["chapter", "stage", "failures", "stalled_seconds_finalize_only",
               "completed"]] : List (List String)).length from rfl,
          List.take_left]
    · show ((_ ++ _ : List (List String))).length = _
      rw [List.length_append, List.length_map]
      show 4 + (sorted_keys (op_by_stage evs)).length = _
      rw [sorted_keys, List.length_insertionSort, List.length_map]
    · intro k hk
      rw [alookup_isSome_iff_mem]
      exact (List.perm_insertionSort keyLE _).subset hk
  · intro evs logname
    refine ⟨rfl, ?_⟩
    show ((_ ++ _ : List (List String))).take 4 = _
    rw [show (4 : Nat) =
          ([["participant_file", logname],
            ["total_stalled_seconds", fmt_fixed 3 (script_total evs)],
            [],
            ["chapter", "stage", "failures", "stalled_seconds", "completed"]] :
              List (List String)).length from rfl,
        List.take_left]

/-- C6 counterexample: an aggregation run of the standalone script produces
a CSV with no byte-order mark whose first rows read `participant_file` and
`total_stalled_seconds` — not the claimed `participant_log_file` /
`total_stalled_seconds_finalize_only` with BOM. -/
theorem C6_script_csv_counterexample :
    (script_export_csv [] "p.jsonl").bom = false ∧
    (script_export_csv [] "p.jsonl").rows.take 2 =
      [["participant_file", "p.jsonl"], ["total_stalled_seconds", "0.000"]] := by
  refine ⟨rfl, ?_⟩
  have h0 : fmt_fixed 3 (script_total []) = "0.000" := by
    norm_num [fmt_fixed, round_half_even, script_total, script_by_stage]
    decide
  show [["participant_file", "p.jsonl"],
        ["total_stalled_seconds", fmt_fixed 3 (script_total [])]] = _
  rw [h0]

theorem C6_csv_format_witness :
    (op_export_csv scenario_log "p.jsonl").bom = true ∧
    (op_export_csv scenario_log "p.jsonl").rows.length =
      4 + (op_by_stage scenario_log).length ∧
    (script_export_csv scenario_log "p.jsonl").bom = false :=
  ⟨(C6_csv_format.1 scenario_log "p.jsonl").1,
   (C6_csv_format.1 scenario_log "p.jsonl").2.2.1,
   (C6_csv_format.2 scenario_log "p.jsonl").1⟩

/-! ### C10: the first line of a newly created participant log -/

/-- The path `ensure_participant_log_file` creates on first use. -/
def new_log_path (p : Props) (w : World) : String :=
  path_join (if py_strip p.log_dir = "" then default_log_dir else p.log_dir)
    (safe_participant_id p.participant_id ++ "_" ++ w.now_str ++ ".jsonl")

/-- The `session_start` line written on creation. -/
def session_start_line (p : Props) (w : World) : WEvent :=
  WEvent.session_start w.now (safe_participant_id p.participant_id)
    w.blender_version w.addon_version

theorem path_join_length (d f : String) : f.length ≤ (path_join d f).length := by
  unfold path_join
  split
  · rw [String.length_append]
    omega
  · rw [String.length_append]
    omega

theorem new_log_path_ne_empty (p : Props) (w : World) : new_log_path p w ≠ "" := by
  intro h
  have h1 : (safe_participant_id p.participant_id ++ "_" ++ w.now_str ++
      ".jsonl").length ≤ (new_log_path p w).length := path_join_length _ _
  rw [h] at h1
  have h6 : (".jsonl" : String).length = 6 := rfl
  have h0 : ("" : String).length = 0 := rfl
  rw [h0, String.length_append, h6] at h1
  omega

theorem props_error_update_self (p : Props) (h : p.participant_log_error = "") :
    { p with participant_log_error := "" } = p := by
  cases p
  simp_all

/-- On first use — fresh path, writable directory, non-empty sanitized id —
the log file is created holding exactly the `session_start` line. -/
theorem ensure_creates (p : Props) (fs : FSys) (w : World)
    (hpid : safe_participant_id p.participant_id ≠ "")
    (hmk : w.mkdir_ok = true) (hwr : w.write_ok = true)
    (hpath : p.participant_log_path = "")
    (hfresh : alookup (new_log_path p w) fs = none) :
    ensure_participant_log_file p fs w =
      (true,
       { p with
           log_dir := if py_strip p.log_dir = "" then default_log_dir else p.log_dir,
           participant_log_path := new_log_path p w,
           participant_log_error := "" },
       fs ++ [(new_log_path p w, [session_start_line p w])]) := by
  simp only [ensure_participant_log_file, fs_append]
  split_ifs with h1 h2 h3 h4 h5 h6 <;>
    simp_all [new_log_path, session_start_line]

/-- When the remembered path still points at an existing file, the log file
is reused untouched. -/
theorem ensure_reuses (p : Props) (fs : FSys) (w : World)
    (hpid : safe_participant_id p.participant_id ≠ "")
    (hdir : ¬ py_strip p.log_dir = "")
    (hmk : w.mkdir_ok = true)
    (hpath : p.participant_log_path ≠ "")
    (hsome : (alookup p.participant_log_path fs).isSome)
    (herr : p.participant_log_error = "") :
    ensure_participant_log_file p fs w = (true, p, fs) := by
  simp only [ensure_participant_log_file]
  rw [if_neg hpid, if_neg hdir]
  rw [if_neg (show ¬ ¬ w.mkdir_ok = true by simp [hmk])]
  rw [if_pos ⟨hpath, hsome⟩]
  rw [props_error_update_self p herr]

set_option maxHeartbeats 2000000 in
/-- C10: with a non-empty sanitized participant id and no log file yet, the
file created at the deterministic new path holds the `session_start` event —
carrying the timestamp, the sanitized id and both version strings — as its
first (and only) line, and every subsequent event appends to that same
path. -/
theorem C10_session_start_first_line :
    ∀ (p : Props) (fs : FSys) (w : World) (ev : WEvent),
      safe_participant_id p.participant_id ≠ "" →
      w.mkdir_ok = true → w.write_ok = true →
      p.enable_participant_logging = true →
      p.participant_log_path = "" →
      alookup (new_log_path p w) fs = none →
      (ensure_participant_log_file p fs w).1 = true ∧
      (ensure_participant_log_file p fs w).2.1.participant_log_path =
        new_log_path p w ∧
      alookup (new_log_path p w) (ensure_participant_log_file p fs w).2.2 =
        some [session_start_line p w] ∧
      append_participant_event (ensure_participant_log_file p fs w).2.1
          (ensure_participant_log_file p fs w).2.2 w ev =
        ((ensure_participant_log_file p fs w).2.1,
         aupd (new_log_path p w) (fun ls => ls ++ [ev])
           (ensure_participant_log_file p fs w).2.2) ∧
      alookup (new_log_path p w)
          (append_participant_event (ensure_participant_log_file p fs w).2.1
            (ensure_participant_log_file p fs w).2.2 w ev).2 =
        some [session_start_line p w, ev] := by
  intro p fs w ev hpid hmk hwr hen hpath hfresh
  have hC := ensure_creates p fs w hpid hmk hwr hpath hfresh
  rw [hC]
  have hlook : alookup (new_log_path p w)
      (fs ++ [(new_log_path p w, [session_start_line p w])]) =
      some [session_start_line p w] := by
    rw [alookup_append_single, hfresh]
    simp
  have hdir1 : ¬ py_strip (if py_strip p.log_dir = "" then default_log_dir
      else p.log_dir) = "" := by
    split
    · decide
    · assumption
  have hre : ensure_participant_log_file
      ({ p with
          log_dir := if py_strip p.log_dir = "" then default_log_dir else p.log_dir,
          participant_log_path := new_log_path p w,
          participant_log_error := "" })
      (fs ++ [(new_log_path p w, [session_start_line p w])]) w =
      (true,
       { p with
          log_dir := if py_strip p.log_dir = "" then default_log_dir else p.log_dir,
          participant_log_path := new_log_path p w,
          participant_log_error := "" },
       fs ++ [(new_log_path p w, [session_start_line p w])]) :=
    ensure_reuses
      ({ p with
          log_dir := if py_strip p.log_dir = "" then default_log_dir else p.log_dir,
          participant_log_path := new_log_path p w,
          participant_log_error := "" })
      (fs ++ [(new_log_path p w, [session_start_line p w])]) w hpid hdir1 hmk
      (new_log_path_ne_empty p w)
      (by
        show (alookup (new_log_path p w)
          (fs ++ [(new_log_path p w, [session_start_line p w])])).isSome
        rw [hlook]
        rfl)
      rfl
  have happ : append_participant_event
      ({ p with
          log_dir := if py_strip p.log_dir = "" then default_log_dir else p.log_dir,
          participant_log_path := new_log_path p w,
          participant_log_error := "" })
      (fs ++ [(new_log_path p w, [session_start_line p w])]) w ev =
      ({ p with
          log_dir := if py_strip p.log_dir = "" then default_log_dir else p.log_dir,
          participant_log_path := new_log_path p w,
          participant_log_error := "" },
       aupd (new_log_path p w) (fun ls => ls ++ [ev])
         (fs ++ [(new_log_path p w, [session_start_line p w])])) := by
    simp only [append_participant_event]
    rw [if_neg (show ¬ ¬ ({ p with
        log_dir := if py_strip p.log_dir = "" then default_log_dir else p.log_dir,
        participant_log_path := new_log_path p w,
        participant_log_error := "" } : Props).enable_participant_logging = true
      by simp [hen])]
    rw [hre]
    split_ifs with ha hb <;> simp_all [fs_append]
  refine ⟨rfl, rfl, hlook, happ, ?_⟩
  rw [happ]
  show alookup (new_log_path p w) (aupd (new_log_path p w) (fun ls => ls ++ [ev])
      (fs ++ [(new_log_path p w, [session_start_line p w])])) = _
  rw [alookup_aupd, if_pos rfl, hlook]
  rfl

/-- A concrete host state for the logging witness. -/
def w0 : World := ⟨0, "20260101_000000", "4.2.0", "0.8.3", true, true⟩

/-- A session state with a participant id entered and a log directory set. -/
def p_alice : Props :=
  { props_base with participant_id := "alice", log_dir := "d/" }

theorem C10_session_start_first_line_witness :
    (ensure_participant_log_file p_alice [] w0).1 = true ∧
    (ensure_participant_log_file p_alice [] w0).2.1.participant_log_path =
      new_log_path p_alice w0 ∧
    alookup (new_log_path p_alice w0) (ensure_participant_log_file p_alice [] w0).2.2 =
      some [session_start_line p_alice w0] ∧
    append_participant_event (ensure_participant_log_file p_alice [] w0).2.1
        (ensure_participant_log_file p_alice [] w0).2.2 w0
        (WEvent.setup 1 "alice" 1 1) =
      ((ensure_participant_log_file p_alice [] w0).2.1,
       aupd (new_log_path p_alice w0)
         (fun ls => ls ++ [WEvent.setup 1 "alice" 1 1])
         (ensure_participant_log_file p_alice [] w0).2.2) ∧
    alookup (new_log_path p_alice w0)
        (append_participant_event (ensure_participant_log_file p_alice [] w0).2.1
          (ensure_participant_log_file p_alice [] w0).2.2 w0
          (WEvent.setup 1 "alice" 1 1)).2 =
      some [session_start_line p_alice w0, WEvent.setup 1 "alice" 1 1] :=
  C10_session_start_first_line p_alice [] w0 (WEvent.setup 1 "alice" 1 1)
    (by decide) rfl rfl rfl rfl rfl
